import Mathlib

set_option maxRecDepth 100000
set_option maxHeartbeats 2000000

namespace EvolSynth

/-! ## Python string primitives (ASCII fragment) -/

/-- Characters matched by the regex class `\s` (ASCII fragment of Python
whitespace). -/
def isWsChar (c : Char) : Bool :=
  c = ' ' || c = '\t' || c = '\n' || c = '\r' || c = '\x0b' || c = '\x0c'

def isDigitChar (c : Char) : Bool :=
  '0' ≤ c && c ≤ '9'

/-- Characters matched by the regex class `\w` (ASCII fragment). -/
def isWordChar (c : Char) : Bool :=
  isDigitChar c || ('a' ≤ c && c ≤ 'z') || ('A' ≤ c && c ≤ 'Z') || c = '_'

/-- ASCII fragment of `str.lower()`. -/
def lowerChar (c : Char) : Char :=
  if 'A' ≤ c && c ≤ 'Z' then Char.ofNat (c.toNat + 32) else c

def lowerStr (cs : List Char) : List Char := cs.map lowerChar

/-- ASCII fragment of `str.upper()`. -/
def upperChar (c : Char) : Char :=
  if 'a' ≤ c && c ≤ 'z' then Char.ofNat (c.toNat - 32) else c

def upperStr (cs : List Char) : List Char := cs.map upperChar

/-- Does `cs` start with the literal `lit`? -/
def lstartsWith : List Char → List Char → Bool
  | _, [] => true
  | [], _ :: _ => false
  | c :: cs, d :: ds => c = d && lstartsWith cs ds

/-- Python `sub in hay` (substring containment). -/
def containsSub : List Char → List Char → Bool
  | [], sub => sub.isEmpty
  | c :: t, sub => lstartsWith (c :: t) sub || containsSub t sub

/-- Python `str.strip()` with an explicit character set predicate (strips from
both ends). -/
def pyStrip (p : Char → Bool) (cs : List Char) : List Char :=
  ((cs.dropWhile p).reverse.dropWhile p).reverse

/-- Python `str.strip()` with no argument (whitespace). -/
def pyStripWs (cs : List Char) : List Char := pyStrip isWsChar cs

/-- Python `str.split()` with no argument: split on whitespace runs, dropping
empty pieces.  The accumulator holds the current word reversed. -/
def pySplitWsAux : List Char → List Char → List (List Char)
  | [], acc => if acc.isEmpty then [] else [acc.reverse]
  | c :: cs, acc =>
    if isWsChar c then
      if acc.isEmpty then pySplitWsAux cs [] else acc.reverse :: pySplitWsAux cs []
    else pySplitWsAux cs (c :: acc)

def pySplitWs (cs : List Char) : List (List Char) := pySplitWsAux cs []

/-- Python `str.split(sep)` for a single-character separator: keeps empty
pieces. -/
def pySplitChar (sep : Char) : List Char → List (List Char)
  | [] => [[]]
  | c :: cs =>
    let rest := pySplitChar sep cs
    if c = sep then [] :: rest
    else match rest with
      | [] => [[c]]
      | r :: rs => (c :: r) :: rs

/-- Non-overlapping occurrence count, scanning left to right
(Python `hay.count(sub)` for nonempty `sub`); fuel-structural. -/
def countOccAux (sub : List Char) : Nat → List Char → Nat
  | 0, _ => 0
  | fuel + 1, cs =>
    if lstartsWith cs sub && !sub.isEmpty then
      1 + countOccAux sub fuel (cs.drop sub.length)
    else
      match cs with
      | [] => 0
      | _ :: t => countOccAux sub fuel t

/-- Python `hay.count(sub)`.  (For empty `sub` Python returns `len + 1`.) -/
def pyCount (hay sub : List Char) : Nat :=
  if sub.isEmpty then hay.length + 1 else countOccAux sub (hay.length + 1) hay

/-- Python `hay.find(sub)`: index of first occurrence, `-1` if absent. -/
def pyFindAux (sub : List Char) : Nat → Nat → List Char → Int
  | 0, _, _ => -1
  | fuel + 1, i, cs =>
    if lstartsWith cs sub then Int.ofNat i
    else
      match cs with
      | [] => -1
      | _ :: t => pyFindAux sub fuel (i + 1) t

def pyFind (hay sub : List Char) : Int := pyFindAux sub (hay.length + 1) 0 hay

/-- Python `hay.rfind(ch)` for a single character: index of last occurrence,
`-1` if absent. -/
def pyRfindChar (hay : List Char) (ch : Char) : Int :=
  let rec go : List Char → Nat → Int → Int
    | [], _, best => best
    | c :: t, i, best => go t (i + 1) (if c = ch then Int.ofNat i else best)
  go hay 0 (-1)

/-- Python slicing `s[:n]`. -/
def strTake (n : Nat) (s : String) : String := ⟨s.data.take n⟩

/-- Join a list of strings with a separator (Python `sep.join(parts)`). -/
def joinSep (sep : String) : List String → String
  | [] => ""
  | [x] => x
  | x :: y :: rest => x ++ sep ++ joinSep sep (y :: rest)

/-- Python `min(a, b)` on numbers. -/
def pyMin (a b : ℚ) : ℚ := if a ≤ b then a else b

/-- Python `max(a, b)` on numbers. -/
def pyMax (a b : ℚ) : ℚ := if a ≤ b then b else a

/-! ## Decimal numerals (Python `str(n)` for a non-negative int) -/

def digitChar : Nat → Char
  | 0 => '0' | 1 => '1' | 2 => '2' | 3 => '3' | 4 => '4'
  | 5 => '5' | 6 => '6' | 7 => '7' | 8 => '8' | _ => '9'

def digitVal (c : Char) : Nat :=
  if c = '0' then 0 else if c = '1' then 1 else if c = '2' then 2
  else if c = '3' then 3 else if c = '4' then 4 else if c = '5' then 5
  else if c = '6' then 6 else if c = '7' then 7 else if c = '8' then 8 else 9

def natDigitsAux : Nat → Nat → List Char
  | 0, _ => []
  | fuel + 1, n =>
    if n < 10 then [digitChar n]
    else natDigitsAux fuel (n / 10) ++ [digitChar (n % 10)]

def natDigits (n : Nat) : List Char := natDigitsAux (n + 1) n

/-- Python `str(n)` for a natural number. -/
def pyNatRepr (n : Nat) : String := ⟨natDigits n⟩

/-! ## RelevanceScorer (`_calculate_relevance_score`, `_is_content_relevant`) -/

/-- The character set of Python `str.strip('?.,!')` in the scorer. -/
def stripPunctFour (c : Char) : Bool :=
  c = '?' || c = '.' || c = ',' || c = '!'

/-- The fixed stopword set `common_words` of the source. -/
def commonWords : List (List Char) :=
  (["what", "how", "why", "when", "where", "who", "which", "is", "are",
    "the", "a", "an", "and", "or", "but", "in", "on", "at", "to", "for",
    "of", "with", "by"]).map String.data

/-- `set(word.lower().strip('?.,!') for word in question.split())`
(the set is modelled by `dedup`; every use of it is order-independent). -/
def questionTerms (question : List Char) : List (List Char) :=
  ((pySplitWs question).map fun w => pyStrip stripPunctFour (lowerStr w)).dedup

/-- `key_terms` of `_calculate_relevance_score`: stopwords removed, then terms
of length `> 2` kept. -/
def keyTermsOf (question : List Char) : List (List Char) :=
  ((questionTerms question).filter fun t => !(commonWords.contains t)).filter
    fun t => t.length > 2

/-- Per-term contribution of the scorer loop body (`term_count` is
`content_lower.count(term)`, `first_occurrence` is
`content_lower.find(term)`). -/
def termScore (content_lower : List Char) (t : List Char) : ℚ :=
  if pyCount content_lower t > 0 then
    pyMin ((pyCount content_lower t : ℚ) * 2) 10 +
      (if pyFind content_lower t < 200 then 3
       else if pyFind content_lower t < 500 then 1
       else 0)
  else 0

/-- `_calculate_relevance_score(question, content)`. -/
def calculateRelevanceScore (question content : List Char) : ℚ :=
  if question.isEmpty || content.isEmpty then 0
  else if (keyTermsOf question).isEmpty then 0
  else
    ((keyTermsOf question).foldl
        (fun acc t => acc + termScore (lowerStr content) t) 0) /
      pyMax ((content.length : ℚ) / 1000) 1

/-- `_is_content_relevant(question, content)`. -/
def isContentRelevant (question content : List Char) : Bool :=
  if question.isEmpty || content.isEmpty then false
  else
    let key_terms := (questionTerms question).filter fun t => !(commonWords.contains t)
    (key_terms.filter fun t => t.length > 2).any fun t =>
      containsSub (lowerStr content) t

/-- Written from the SPEC wording of claim C8 as amended: the sum over each
distinct surviving question term of `min(occurrences*2, 10)` plus the
positional bonus, divided by `max(content length / 1000, 1)`.  Kept separate
from the source translation for the refinement comparison. -/
def relevanceScoreSpecAmended (question content : List Char) : ℚ :=
  (((keyTermsOf question).map fun t =>
      if pyCount (lowerStr content) t > 0 then
        pyMin ((pyCount (lowerStr content) t : ℚ) * 2) 10 +
          (if pyFind (lowerStr content) t < 200 then 3
           else if pyFind (lowerStr content) t < 500 then 1
           else 0)
      else 0).sum) / pyMax ((content.length : ℚ) / 1000) 1

/-- Written from the SPEC wording of claim C8 as stated: same sum, but divided
by `content length / 1000` with no clamp at 1. -/
def relevanceScoreSpecAsStated (question content : List Char) : ℚ :=
  (((keyTermsOf question).map fun t =>
      if pyCount (lowerStr content) t > 0 then
        pyMin ((pyCount (lowerStr content) t : ℚ) * 2) 10 +
          (if pyFind (lowerStr content) t < 200 then 3
           else if pyFind (lowerStr content) t < 500 then 1
           else 0)
      else 0).sum) / ((content.length : ℚ) / 1000)

/-! ## EvaluationService `_extract_numerical_score`

The three regex stages of the source are embedded as position-by-position
scanners returning the matched numeral as digit strings
`(integer part, fractional part)`; `numValue` is Python `float()` of the
matched group (exact, as a rational). -/

def digitsToNat (ds : List Char) : Nat :=
  ds.foldl (fun a c => 10 * a + digitVal c) 0

/-- Python `float()` of a numeral `\d+(?:\.\d+)?` split into its digit
parts. -/
def numValue (p : List Char × List Char) : ℚ :=
  (digitsToNat p.1 : ℚ) + (digitsToNat p.2 : ℚ) / 10 ^ p.2.length

/-- Match the regex fragment `\d+(?:\.\d+)?` at the head of `cs`, greedily,
returning the digit parts and the rest.  A trailing `.` without digits is not
consumed, as in the regex. -/
def parseNumeralP (cs : List Char) : Option ((List Char × List Char) × List Char) :=
  if (cs.takeWhile isDigitChar).isEmpty then none
  else
    match cs.dropWhile isDigitChar with
    | '.' :: r2 =>
      if (r2.takeWhile isDigitChar).isEmpty then
        some ((cs.takeWhile isDigitChar, []), cs.dropWhile isDigitChar)
      else
        some ((cs.takeWhile isDigitChar, r2.takeWhile isDigitChar),
          r2.dropWhile isDigitChar)
    | r => some ((cs.takeWhile isDigitChar, []), r)

/-- Leftmost match of `re.search(r'Score:\s*(\d+(?:\.\d+)?)', ..., IGNORECASE)`
over the lowered text: group 1 as digit parts. -/
def scanScoreColonP : Nat → List Char → Option (List Char × List Char)
  | 0, _ => none
  | fuel + 1, cs =>
    match
      (if lstartsWith cs ("score:".data) then
        (parseNumeralP ((cs.drop 6).dropWhile isWsChar)).map Prod.fst
      else none) with
    | some p => some p
    | none =>
      match cs with
      | [] => none
      | _ :: t => scanScoreColonP fuel t

/-- Leftmost match of
`re.search(r'(\d+(?:\.\d+)?)\s*(?:/10|/9|out of 10|out of 9)', ..., IGNORECASE)`
over the lowered text. -/
def scanSlashScoreP : Nat → List Char → Option (List Char × List Char)
  | 0, _ => none
  | fuel + 1, cs =>
    match
      (match parseNumeralP cs with
       | some (p, rest) =>
         if lstartsWith (rest.dropWhile isWsChar) ("/10".data) ||
             lstartsWith (rest.dropWhile isWsChar) ("/9".data) ||
             lstartsWith (rest.dropWhile isWsChar) ("out of 10".data) ||
             lstartsWith (rest.dropWhile isWsChar) ("out of 9".data) then
           some p
         else none
       | none => none) with
    | some p => some p
    | none =>
      match cs with
      | [] => none
      | _ :: t => scanSlashScoreP fuel t

/-- Word-boundary check after a numeral match (`\b`). -/
def boundaryOk : List Char → Bool
  | [] => true
  | d :: _ => !isWordChar d

/-- `re.findall(r'\b(\d+(?:\.\d+)?)\b', ...)` over the lowered text.  The
`Bool` argument records whether the previous character was a word character
(for the leading `\b`); on a failed boundary after a fractional part the match
backtracks to the integer part, whose following `.` always satisfies `\b`. -/
def scanAllNumsP : Nat → Bool → List Char → List (List Char × List Char)
  | 0, _, _ => []
  | fuel + 1, prevWord, cs =>
    match cs with
    | [] => []
    | c :: t =>
      if !prevWord && isDigitChar c then
        match (c :: t).dropWhile isDigitChar with
        | '.' :: r2 =>
          if (r2.takeWhile isDigitChar).isEmpty then
            ((c :: t).takeWhile isDigitChar, []) ::
              scanAllNumsP fuel true ((c :: t).dropWhile isDigitChar)
          else
            if boundaryOk (r2.dropWhile isDigitChar) then
              ((c :: t).takeWhile isDigitChar, r2.takeWhile isDigitChar) ::
                scanAllNumsP fuel true (r2.dropWhile isDigitChar)
            else
              ((c :: t).takeWhile isDigitChar, []) ::
                scanAllNumsP fuel true ((c :: t).dropWhile isDigitChar)
        | r =>
          if boundaryOk r then
            ((c :: t).takeWhile isDigitChar, []) :: scanAllNumsP fuel true r
          else scanAllNumsP fuel true t
      else scanAllNumsP fuel (isWordChar c) t

/-- The stage-3 loop: first number in `[1, 10]`. -/
def firstInRange : List ℚ → Option ℚ
  | [] => none
  | v :: vs => if 1 ≤ v ∧ v ≤ 10 then some v else firstInRange vs

def stage1Raw (csL : List Char) : Option ℚ :=
  (scanScoreColonP (csL.length + 1) csL).map numValue

def stage2Raw (csL : List Char) : Option ℚ :=
  (scanSlashScoreP (csL.length + 1) csL).map numValue

def stage3Raw (csL : List Char) : Option ℚ :=
  firstInRange ((scanAllNumsP (csL.length + 1) false csL).map numValue)

/-- Python truthiness of `extracted_score` (`None` and `0.0` are falsy). -/
def optTruthy : Option ℚ → Bool
  | none => false
  | some v => decide (v ≠ 0)

/-- The keyword-heuristic fallback block of `_extract_numerical_score`. -/
def keywordScore (text_lower : List Char) (fallback : ℚ) : ℚ :=
  if ["excellent", "outstanding", "exceptional"].any
      (fun w => containsSub text_lower w.data) then 8.5
  else if ["good", "well", "solid", "effective"].any
      (fun w => containsSub text_lower w.data) then 7
  else if ["fair", "adequate", "reasonable"].any
      (fun w => containsSub text_lower w.data) then 6
  else if ["poor", "weak", "lacking"].any
      (fun w => containsSub text_lower w.data) then 4
  else if ["terrible", "awful", "bad"].any
      (fun w => containsSub text_lower w.data) then 2
  else pyMin 8 fallback

/-- `extracted_score` after the first two stages (`if not extracted_score`
guards the second search, which only overwrites on a match). -/
def extractStage12 (csL : List Char) : Option ℚ :=
  if optTruthy (stage1Raw csL) then stage1Raw csL
  else
    match stage2Raw csL with
    | some v => some v
    | none => stage1Raw csL

/-- `extracted_score` after all three stages. -/
def extractStage123 (csL : List Char) : Option ℚ :=
  if optTruthy (extractStage12 csL) then extractStage12 csL
  else
    match stage3Raw csL with
    | some v => some v
    | none => extractStage12 csL

/-- `_extract_numerical_score(evaluation_text, fallback_score)`. -/
def extractNumericalScore (text : String) (fallback : ℚ) : ℚ :=
  match extractStage123 (lowerStr text.data) with
  | some v =>
    if v = 0 then keywordScore (lowerStr text.data) fallback
    else pyMax 1 (pyMin 9 v)
  | none => keywordScore (lowerStr text.data) fallback

def firstNonzeroQ : List (Option ℚ) → Option ℚ
  | [] => none
  | none :: rest => firstNonzeroQ rest
  | some v :: rest => if v = 0 then firstNonzeroQ rest else some v

def firstSomeQ : List (Option ℚ) → Option ℚ
  | [] => none
  | none :: rest => firstSomeQ rest
  | some v :: _ => some v

/-- Written from the SPEC wording of claim C7 as stated: the first stage that
MATCHES (Score-colon pattern, then slash pattern, then bare number in [1,10])
determines the returned raw score, clamped so it never exceeds 9; otherwise
the keyword map, else the fixed fallback. -/
def extractScoreSpecAsStated (text : String) (fallback : ℚ) : ℚ :=
  match firstSomeQ [stage1Raw (lowerStr text.data), stage2Raw (lowerStr text.data),
      stage3Raw (lowerStr text.data)] with
  | some v => pyMin 9 v
  | none => keywordScore (lowerStr text.data) fallback

/-- Written from the SPEC wording of claim C7 as amended: the first stage
whose extracted value is NONZERO determines the result, clamped to [1, 9]; a
stage match with value 0 is skipped (Python falsiness); with no nonzero stage
value the keyword map applies, else `min(8, fallback)`. -/
def extractScoreSpecAmended (text : String) (fallback : ℚ) : ℚ :=
  match firstNonzeroQ [stage1Raw (lowerStr text.data), stage2Raw (lowerStr text.data),
      stage3Raw (lowerStr text.data)] with
  | some v => pyMax 1 (pyMin 9 v)
  | none => keywordScore (lowerStr text.data) fallback

/-! ## EvaluationService (`evaluate_synthetic_data` and the per-metric
evaluators)

The judge LLM (`self.evaluation_llm.invoke`) is an external collaborator,
modelled as a total function from the formatted prompt to the response text.
Prompt templates are abbreviated (spec non-goal); no verified property depends
on their wording. -/

structure EvalQ where
  id : String
  question : String
  evolution_type : String
  complexity_level : Nat
deriving DecidableEq, Repr

structure QARec where
  question_id : String
  answer : String
deriving DecidableEq, Repr

def questionQualityPrompt (q : EvalQ) : String :=
  "question_quality|" ++ q.question ++ "|" ++ q.evolution_type

def answerAccuracyPrompt (q : EvalQ) (answer : String) : String :=
  "answer_accuracy|" ++ q.question ++ "|" ++ answer

def evolutionEffectivenessPrompt (q : EvalQ) : String :=
  "evolution_effectiveness|" ++ q.question ++ "|" ++ q.evolution_type ++ "|"
    ++ pyNatRepr q.complexity_level

/-- `_evaluate_question_quality`: judge response stripped, score extracted
with fallback 6.5, then capped at 8.8. -/
def evaluateQuestionQuality (judge : String → String) (q : EvalQ) : ℚ :=
  pyMin 8.8
    (extractNumericalScore ⟨pyStripWs (judge (questionQualityPrompt q)).data⟩ 6.5)

/-- `_evaluate_answer_accuracy`: empty answer scores a fixed 2.0 with no LLM
call; otherwise extracted with fallback 6.0 and capped at 8.5. -/
def evaluateAnswerAccuracy (judge : String → String) (q : EvalQ)
    (answer : String) : ℚ :=
  if answer = "" then 2
  else
    pyMin 8.5
      (extractNumericalScore
        ⟨pyStripWs (judge (answerAccuracyPrompt q answer)).data⟩ 6)

/-- `_evaluate_evolution_effectiveness`: extracted with fallback 6.5 and
capped at 8.7. -/
def evaluateEvolutionEffectiveness (judge : String → String) (q : EvalQ) : ℚ :=
  pyMin 8.7
    (extractNumericalScore
      ⟨pyStripWs (judge (evolutionEffectivenessPrompt q)).data⟩ 6.5)

/-- `_evaluate_single_metric` (unknown metric scores 5.0; the judge being a
total function, the exception branch returning 5.0 is not exercised). -/
def evaluateSingleMetric (judge : String → String) (q : EvalQ)
    (answer : String) (metric : String) : ℚ :=
  if metric = "question_quality" then evaluateQuestionQuality judge q
  else if metric = "answer_accuracy" then evaluateAnswerAccuracy judge q answer
  else if metric = "evolution_effectiveness" then
    evaluateEvolutionEffectiveness judge q
  else 5

/-- `answer_map.get(question_id, "")` built from
`{qa["question_id"]: qa["answer"] for qa in question_answers}` (a later entry
with the same key overwrites an earlier one). -/
def answerFor (qas : List QARec) (qid : String) : String :=
  match (qas.filter fun qa => qa.question_id == qid).getLast? with
  | some qa => qa.answer
  | none => ""

/-- The `detailed_results` list of `evaluate_synthetic_data`: per question,
per metric, the raw score on the 1-9 scale. -/
def detailedResults (judge : String → String) (qs : List EvalQ)
    (qas : List QARec) (metrics : List String) :
    List (String × List (String × ℚ)) :=
  qs.map fun q =>
    (q.id, metrics.map fun m => (m, evaluateSingleMetric judge q (answerFor qas q.id) m))

/-- The `metric_scores[metric]` list: one appended raw score per question per
occurrence of the metric in `evaluation_metrics`. -/
def metricScoresFor (judge : String → String) (qs : List EvalQ)
    (qas : List QARec) (metrics : List String) (m : String) : List ℚ :=
  qs.flatMap fun q =>
    (metrics.filter fun m2 => m2 == m).map fun _ =>
      evaluateSingleMetric judge q (answerFor qas q.id) m

/-- The `overall_scores[metric]` computation: average of the raw 1-9 scores,
normalized via `(avg - 1) / 8`, capped at 0.95, floored at 0. -/
def overallScore (judge : String → String) (qs : List EvalQ) (qas : List QARec)
    (metrics : List String) (m : String) : ℚ :=
  if (metricScoresFor judge qs qas metrics m).isEmpty then 0
  else
    pyMax 0 (pyMin 0.95
      (((metricScoresFor judge qs qas metrics m).sum /
          (metricScoresFor judge qs qas metrics m).length - 1) / 8))

/-- The final safeguard loop over `overall_scores`. -/
def safeguardScore (x : ℚ) : ℚ :=
  if 1 ≤ x then 0.95 else if 0.98 ≤ x then 0.95 else x

/-- `safeguarded_scores[metric]` as returned in the evaluation result. -/
def finalOverallScore (judge : String → String) (qs : List EvalQ)
    (qas : List QARec) (metrics : List String) (m : String) : ℚ :=
  safeguardScore (overallScore judge qs qas metrics m)

/-! ## TextCleaner (`_clean_boilerplate`)

A small backtracking regex engine covering exactly the constructs of the
boilerplate patterns: case-insensitive literals, `\s+`, `\s*`, lazy `.*?`,
alternations and optional groups of literal content, and the MULTILINE
anchors `^` and `$`.  `matchAtoms` returns the end position of the match a
backtracking engine finds at a given start (greedy/lazy preference orders as
in Python `re`); `reSub` removes every non-overlapping leftmost match, as
`re.sub(pattern, "", text)` does. -/

inductive RAtom where
  | lit (s : List Char)
  | alt (alts : List (List RAtom))
  | opt (g : List RAtom)
  | wsPlus
  | wsStar
  | dotStarNG
  | bol
  | eol
deriving Repr

/-- Case-insensitively consume the literal `s` (pattern lowercase) from the
front of the text, returning the remainder. -/
def ciDrop : List Char → List Char → Option (List Char)
  | [], rest => some rest
  | _ :: _, [] => none
  | p :: ps, c :: cs => if lowerChar c = p then ciDrop ps cs else none

/-- One backtracking matching step over the remaining text.  The `Bool` state
records whether the current position follows a newline or is the text start
(for the MULTILINE `^`); a successful match returns that state and the text
remaining after the match.  Preference orders are Python's: greedy `\s*`,
optional groups and alternation left to right, lazy `.*?`. -/
def matchAtoms : Nat → List RAtom → Bool → List Char → Option (Bool × List Char)
  | 0, _, _, _ => none
  | _ + 1, [], nl, rest => some (nl, rest)
  | fuel + 1, a :: as, nl, rest =>
    match a with
    | .lit s =>
      match ciDrop s rest with
      | some rest2 => matchAtoms fuel as false rest2
      | none => none
    | .alt alts =>
      alts.foldl (fun acc b => acc <|> matchAtoms fuel (b ++ as) nl rest) none
    | .opt g => matchAtoms fuel (g ++ as) nl rest <|> matchAtoms fuel as nl rest
    | .wsPlus =>
      match rest with
      | c :: r => if isWsChar c then matchAtoms fuel (RAtom.wsStar :: as) (c = '\n') r else none
      | [] => none
    | .wsStar =>
      (match rest with
       | c :: r => if isWsChar c then matchAtoms fuel (RAtom.wsStar :: as) (c = '\n') r else none
       | [] => none) <|>
        matchAtoms fuel as nl rest
    | .dotStarNG =>
      matchAtoms fuel as nl rest <|>
        (match rest with
         | c :: r => if c = '\n' then none else matchAtoms fuel (RAtom.dotStarNG :: as) false r
         | [] => none)
    | .bol => if nl then matchAtoms fuel as nl rest else none
    | .eol =>
      match rest with
      | [] => matchAtoms fuel as nl rest
      | c :: _ => if c = '\n' then matchAtoms fuel as nl rest else none

/-- Remove every non-overlapping leftmost match of the pattern, scanning left
to right, as `re.sub(pattern, "", text)` does (every boilerplate pattern
contains a nonempty literal or `\s+`, so no match is empty; a degenerate
empty match falls back to emitting the character). -/
def reSubGo (pat : List RAtom) : Nat → Bool → List Char → List Char
  | 0, _, rest => rest
  | fuel + 1, nl, rest =>
    match rest with
    | [] => []
    | c :: r =>
      match matchAtoms (rest.length + 400) pat nl (c :: r) with
      | some (nl2, rest2) =>
        if rest2.length < r.length + 1 then reSubGo pat fuel nl2 rest2
        else c :: reSubGo pat fuel (c = '\n') r
      | none => c :: reSubGo pat fuel (c = '\n') r

def reSub (pat : List RAtom) (text : List Char) : List Char :=
  reSubGo pat (text.length + 1) true text

def rlit (s : String) : RAtom := .lit s.data

def wordAlt (ws : List String) : RAtom := .alt (ws.map fun w => [RAtom.lit w.data])

/-- The ordered `boilerplate_patterns` list of `_clean_boilerplate`,
compiled with `re.IGNORECASE | re.MULTILINE`. -/
def boilerplatePatterns : List (List RAtom) :=
  [ [.bol, rlit "a", .wsPlus, rlit "transformed", .wsPlus, rlit "version", .wsPlus,
      rlit "of", .wsPlus, rlit "the", .wsPlus, rlit "question", .wsPlus, rlit "that",
      .wsPlus, rlit "requires", .wsPlus, rlit "logical", .wsPlus, rlit "reasoning",
      .wsPlus, rlit "and", .wsPlus, rlit "multi-step", .wsPlus, rlit "analysis:",
      .wsStar],
    [.bol, rlit "here", .opt [rlit "'"], .opt [rlit "s"], .wsPlus, rlit "a", .wsPlus,
      rlit "more", .wsPlus, rlit "specific", .wsPlus, rlit "version", .wsPlus,
      rlit "of", .wsPlus, rlit "the", .wsPlus, rlit "question:", .wsStar],
    [.bol, rlit "a", .wsPlus, rlit "detailed", .wsPlus, rlit "version", .wsPlus,
      rlit "of", .wsPlus, rlit "the", .wsPlus, rlit "question", .wsPlus, rlit "that",
      .wsPlus, rlit "requires", .wsPlus, rlit "synthesis:", .wsStar],
    [.bol, .dotStarNG, .wsPlus, rlit "version", .wsPlus, rlit "of", .wsPlus,
      rlit "the", .wsPlus, rlit "question", .wsPlus, rlit "that", .wsPlus,
      .dotStarNG, rlit ":", .wsStar],
    [.bol, .dotStarNG, .wsPlus, rlit "version", .wsPlus, rlit "of", .wsPlus,
      rlit "the", .wsPlus, rlit "question:", .wsStar],
    [.bol, .dotStarNG, .wsPlus, rlit "that", .wsPlus, rlit "require",
      .opt [rlit "s"], .wsPlus, .dotStarNG, rlit ":", .wsStar],
    [.bol, wordAlt ["simple", "multi-context", "reasoning", "complex"], .wsPlus,
      wordAlt ["evolution", "question"], rlit ":", .wsStar],
    [.bol, wordAlt ["evolved", "improved", "advanced", "new", "result"], rlit ":",
      .wsStar],
    [.bol, wordAlt ["question", "answer"], rlit ":", .wsStar],
    [.bol, wordAlt ["certainly", "sure", "of course", "absolutely", "yes"],
      .opt [rlit "!"], .wsStar, rlit "here", .opt [rlit "'"], .opt [rlit "s"],
      .wsPlus],
    [.bol, rlit "here", .opt [rlit "'"], .opt [rlit "s"], .wsPlus],
    [.bol, rlit "i'll", .wsPlus],
    [.bol, rlit "let me", .wsPlus],
    [rlit "generated", .wsPlus, wordAlt ["answer", "question", "content"], .wsPlus,
      rlit "for:", .wsStar],
    [.bol, rlit "based on", .dotStarNG, rlit ":", .wsStar],
    [.bol, .opt [rlit "the", .wsPlus], wordAlt ["following", "above"], .wsPlus,
      wordAlt ["question", "answer", "content"], .wsStar],
    [.bol, rlit "this", .wsPlus, .opt [rlit "is", .wsPlus], .opt [rlit "a", .wsPlus],
      rlit "question", .wsPlus, wordAlt ["that", "which"], .wsPlus],
    [.bol, .opt [rlit "the", .wsPlus], rlit "question", .wsPlus,
      wordAlt ["is", "becomes"], rlit ":", .wsStar],
    [rlit ":", .wsStar, .eol],
    [rlit "that", .wsStar, .eol],
    [rlit "which", .wsStar, .eol] ]

/-- `re.sub(r'\s+', ' ', text)`: collapse each whitespace run to one space. -/
def collapseWsAux : Nat → List Char → List Char
  | 0, _ => []
  | _ + 1, [] => []
  | fuel + 1, c :: t =>
    if isWsChar c then ' ' :: collapseWsAux fuel (t.dropWhile isWsChar)
    else c :: collapseWsAux fuel t

def collapseWs (cs : List Char) : List Char := collapseWsAux (cs.length + 1) cs

/-- The class `[:\-\s]` of the edge-artifact strips. -/
def isEdgePunct (c : Char) : Bool := c = ':' || c = '-' || isWsChar c

def interrogativeWords : List String :=
  ["what", "how", "why", "when", "where", "which", "who"]

/-- `cleaned_text.endswith(('?', '.', '!', ':'))`. -/
def endsWithTerminal (cs : List Char) : Bool :=
  match cs.getLast? with
  | some c => c = '?' || c = '.' || c = '!' || c = ':'
  | none => false

/-- The terminal-punctuation step of `_clean_boilerplate`. -/
def ensureTerminal (cs : List Char) : List Char :=
  if cs.isEmpty then cs
  else if endsWithTerminal cs then cs
  else if interrogativeWords.any (fun w => containsSub (lowerStr cs) w.data) then
    cs ++ ['?']
  else cs ++ ['.']

/-- `_clean_boilerplate` up to (and including) the edge-artifact strips:
initial strip, the pattern passes in order, whitespace collapse + strip,
leading `[:\-\s]+` strip, trailing `[:\-\s]+` strip. -/
def cleanCore (text : String) : List Char :=
  (((pyStripWs
      (collapseWs
        (boilerplatePatterns.foldl (fun acc pat => reSub pat acc)
          (pyStripWs text.data)))).dropWhile
      isEdgePunct).reverse.dropWhile isEdgePunct).reverse

/-- `_clean_boilerplate(text)`. -/
def cleanBoilerplate (text : String) : String :=
  ⟨ensureTerminal (cleanCore text)⟩

/-! ## Generation pipeline data model (`EvolInstructService`)

`Doc` models a LangChain `Document` (`page_content` plus the `source` and
`filename` metadata entries, `""` standing for an absent key).  `BaseQ.oid`
models Python object identity of the base-question dict (all
simultaneously-live objects have distinct ids); the evolved-question id
`f"evolved_{id(question)}"` is built from it. -/

structure Doc where
  page_content : String
  metaSource : String
  metaFilename : String
deriving DecidableEq, Repr

structure BaseQ where
  oid : Nat
  id : String
  question : String
  qtype : String
  document_id : String
deriving DecidableEq, Repr

structure CtxEntry where
  text : String
  source : String
  document_index : Int
deriving DecidableEq, Repr

structure CtxRecord where
  question_id : String
  contexts : List CtxEntry
deriving DecidableEq, Repr

structure GenResult where
  evolved_questions : List EvalQ
  question_answers : List QARec
  question_contexts : List CtxRecord
deriving Repr

/-- The generation knobs the service reads from its configuration. -/
structure GenConfig where
  simple_evolution_count : Nat
  multi_context_evolution_count : Nat
  reasoning_evolution_count : Nat
  complex_evolution_count : Nat
  batch_size : Nat
deriving DecidableEq, Repr

/-- A fallible LLM call: `Except.error` models a raised exception. -/
abbrev LLM := String → Except Unit String

def baseQuestionsPrompt (document : String) : String :=
  "base_questions|" ++ document

def evolutionPrompt (evolution_type question : String) : String :=
  evolution_type ++ "|" ++ question

def answerPrompt (context question : String) : String :=
  "answer|" ++ context ++ "|" ++ question

def ctxExtractPrompt (question content : String) : String :=
  "context|" ++ question ++ "|" ++ content

def summaryPrompt (question content doc_source : String) : String :=
  "summary|" ++ question ++ "|" ++ content ++ "|" ++ doc_source

/-- The complexity assignment of `_process_evolution_sync`:
`2 if simple else 3 if multi_context else 4 if reasoning else 5`. -/
def complexityFor (evolution_type : String) : Nat :=
  if evolution_type = "simple_evolution" then 2
  else if evolution_type = "multi_context_evolution" then 3
  else if evolution_type = "reasoning_evolution" then 4
  else 5

/-- Python batching `[l[i:i+bs] for i in range(0, len(l), bs)]` (the service
always uses a positive `batch_size`; `range` with step 0 would raise). -/
def chunksOfAux (bs : Nat) : Nat → List α → List (List α)
  | 0, _ => []
  | _ + 1, [] => []
  | fuel + 1, l => l.take bs :: chunksOfAux bs fuel (l.drop bs)

def pyChunks (bs : Nat) (l : List α) : List (List α) :=
  chunksOfAux bs (l.length + 1) l

/-- `_get_document_title`: the text after the last `/` (POSIX
`os.path.basename`). -/
def afterLastSlash (p : List Char) : List Char :=
  p.foldl (fun acc c => if c = '/' then [] else acc ++ [c]) []

/-- The root part of POSIX `os.path.splitext` on a basename: split at the last
dot unless every character before it is a dot. -/
def splitextRoot (p : List Char) : List Char :=
  let di := pyRfindChar p '.'
  if 0 ≤ di then
    if (p.take di.toNat).any (fun c => !(c = '.')) then p.take di.toNat else p
  else p

/-- `_get_document_title(doc, doc_index)`. -/
def getDocumentTitle (doc : Doc) (doc_index : Nat) : String :=
  if doc.metaSource ≠ "" then
    if containsSub doc.metaSource.data ['/'] ||
        containsSub doc.metaSource.data ['\\'] then
      let root := splitextRoot (afterLastSlash doc.metaSource.data)
      if root ≠ [] then ⟨root⟩ else ⟨afterLastSlash doc.metaSource.data⟩
    else doc.metaSource
  else if doc.metaFilename ≠ "" then doc.metaFilename
  else "Document " ++ pyNatRepr (doc_index + 1)

def joinWithSep (sep : List Char) : List (List Char) → List Char
  | [] => []
  | [w] => w
  | w :: ws => w ++ sep ++ joinWithSep sep ws

/-- `_create_ai_summary(content, question, doc_source)`: LLM summary truncated
to 200 words; on failure the content truncated to 50 words. -/
def createAiSummary (llm : LLM) (content question doc_source : String) : String :=
  match llm (summaryPrompt question (strTake 1500 content) doc_source) with
  | .ok resp =>
    if (pySplitWs (pyStripWs resp.data)).length > 200 then
      ⟨joinWithSep [' '] ((pySplitWs (pyStripWs resp.data)).take 200)⟩ ++ "..."
    else ⟨pyStripWs resp.data⟩
  | .error _ =>
    if (pySplitWs content.data).length > 50 then
      ⟨joinWithSep [' '] ((pySplitWs content.data).take 50)⟩ ++ "..."
    else content

/-! ## Sync pipeline stages -/

/-- `_process_documents_sync`: base-question generation per document.  The
pair carries the document's position, standing in for `id(doc)`; each created
question dict gets a distinct object id (`3*d + i` — at most three parsed
questions or one fallback per document). -/
def processDocumentsSync (llm : LLM) (doc_batch : List (Nat × Doc)) : List BaseQ :=
  doc_batch.flatMap fun dd =>
    match llm (baseQuestionsPrompt dd.2.page_content) with
    | .ok resp =>
      (((pySplitChar '?' resp.data).filterMap fun q =>
          if (pyStripWs q).isEmpty then none
          else some (pyStripWs q ++ ['?'])).take 3).enum.map fun iq =>
        { oid := 3 * dd.1 + iq.1,
          id := "base_" ++ pyNatRepr dd.1 ++ "_" ++ pyNatRepr iq.1,
          question := ⟨iq.2⟩,
          qtype := "base_question",
          document_id := pyNatRepr dd.1 }
    | .error _ =>
      [{ oid := 3 * dd.1,
         id := "base_" ++ pyNatRepr dd.1 ++ "_fallback",
         question := "What are the main concepts discussed in this document?",
         qtype := "base_question",
         document_id := pyNatRepr dd.1 }]

/-- `_process_evolution_sync`: per question, an empty question text is
skipped; on LLM success the cleaned response becomes the evolved question
with the type-mapped complexity; on an exception the original question is
substituted with complexity hardcoded to 2.  Both paths build the id
`f"evolved_{id(question)}"` from the base-question object identity. -/
def processEvolutionSync (llm : LLM) (question_batch : List BaseQ)
    (evolution_type : String) : List EvalQ :=
  question_batch.filterMap fun question =>
    if question.question = "" then none
    else
      match llm (evolutionPrompt evolution_type question.question) with
      | .ok resp =>
        some { id := "evolved_" ++ pyNatRepr question.oid,
               question := cleanBoilerplate ⟨pyStripWs resp.data⟩,
               evolution_type := evolution_type,
               complexity_level := complexityFor evolution_type }
      | .error _ =>
        some { id := "evolved_" ++ pyNatRepr question.oid,
               question := question.question,
               evolution_type := evolution_type,
               complexity_level := 2 }

/-- `_generate_answers_sync`. -/
def generateAnswersSync (llm : LLM) (question_batch : List EvalQ)
    (documents : List Doc) : List QARec :=
  question_batch.map fun question =>
    match llm (answerPrompt
        (joinSep "\n\n" ((documents.take 2).map fun d => strTake 800 d.page_content))
        question.question) with
    | .ok resp =>
      { question_id := question.id, answer := cleanBoilerplate ⟨pyStripWs resp.data⟩ }
    | .error _ =>
      { question_id := question.id,
        answer := "Unable to generate answer based on provided context." }

def badPhrases : List String :=
  ["no relevant information", "not relevant", "doesn't contain", "does not contain"]

/-- The per-document body of `_extract_contexts_sync`: the question-relevant
text extracted from one document, if any. -/
def syncExtractForDoc (llm : LLM) (question_text : String) (doc : Doc) :
    Option String :=
  if doc.page_content.data.length ≤ 400 then
    if isContentRelevant question_text.data doc.page_content.data then
      some doc.page_content
    else none
  else
    match llm (ctxExtractPrompt question_text (strTake 2000 doc.page_content)) with
    | .ok resp =>
      if cleanBoilerplate ⟨pyStripWs resp.data⟩ ≠ "" &&
          !(badPhrases.any fun ph =>
            containsSub (lowerStr (cleanBoilerplate ⟨pyStripWs resp.data⟩).data) ph.data) then
        some (cleanBoilerplate ⟨pyStripWs resp.data⟩)
      else none
    | .error _ =>
      if isContentRelevant question_text.data doc.page_content.data then
        if pyRfindChar (strTake 600 doc.page_content).data '.' > 400 then
          some (strTake ((pyRfindChar (strTake 600 doc.page_content).data '.').toNat + 1)
            doc.page_content)
        else some (strTake 600 doc.page_content ++ "...")
      else none

/-- `_extract_contexts_sync`: one record per question; per question the first
(at most one) extracted context, with an AI summary, else the first-document
or no-document fallback. -/
def extractContextsSync (llm : LLM) (questions : List EvalQ)
    (documents : List Doc) : List CtxRecord :=
  questions.map fun question =>
    { question_id := question.id,
      contexts :=
        (match (documents.take 3).enum.filterMap fun (dd : Nat × Doc) =>
            (syncExtractForDoc llm question.question dd.2).map fun extracted =>
              ({ text := createAiSummary llm extracted question.question
                    (getDocumentTitle dd.2 dd.1),
                 source := getDocumentTitle dd.2 dd.1,
                 document_index := (dd.1 : Int) } : CtxEntry) with
          | [] =>
            match documents with
            | first_doc :: _ =>
              ([{ text := createAiSummary llm (strTake 800 first_doc.page_content)
                    question.question (getDocumentTitle first_doc 0),
                  source := getDocumentTitle first_doc 0,
                  document_index := 0 }] : List CtxEntry)
            | [] =>
              ([{ text := "No document content available", source := "Unknown",
                  document_index := 0 }] : List CtxEntry)
          | e :: es => e :: es).take 1 }

/-- The four evolution branches around `_evolution_batch`: slice, batch,
process concurrently, concatenate in task order. -/
def evolutionBatch (llm : LLM) (batch_size : Nat) (base_questions : List BaseQ)
    (evolution_type : String) (count : Nat) : List EvalQ :=
  ((pyChunks batch_size (base_questions.take count)).map fun b =>
    processEvolutionSync llm b evolution_type).flatten

/-- The concatenated evolution results of `generate_synthetic_data_async`
(the four branches all receive the same `base_questions` list). -/
def pipelineEvolved (llm : LLM) (base_questions : List BaseQ)
    (cfg : GenConfig) : List EvalQ :=
  evolutionBatch llm cfg.batch_size base_questions "simple_evolution"
      (min base_questions.length cfg.simple_evolution_count) ++
    evolutionBatch llm cfg.batch_size base_questions "multi_context_evolution"
      (min base_questions.length cfg.multi_context_evolution_count) ++
    evolutionBatch llm cfg.batch_size base_questions "reasoning_evolution"
      (min base_questions.length cfg.reasoning_evolution_count) ++
    evolutionBatch llm cfg.batch_size base_questions "complex_evolution"
      (min base_questions.length cfg.complex_evolution_count)

def pipelineAnswers (llm : LLM) (evolved : List EvalQ) (documents : List Doc)
    (batch_size : Nat) : List QARec :=
  ((pyChunks batch_size evolved).map fun b =>
    generateAnswersSync llm b documents).flatten

/-- `generate_synthetic_data_async` from the generated base questions on
(cache-miss path; the performance-metrics timing fields are omitted). -/
def generateFromBase (llm : LLM) (base_questions : List BaseQ)
    (documents : List Doc) (cfg : GenConfig) : GenResult :=
  { evolved_questions := pipelineEvolved llm base_questions cfg,
    question_answers :=
      pipelineAnswers llm (pipelineEvolved llm base_questions cfg) documents
        cfg.batch_size,
    question_contexts :=
      extractContextsSync llm (pipelineEvolved llm base_questions cfg) documents }

/-- The whole async pipeline: base questions from batched documents, then
`generateFromBase`. -/
def generateSyntheticDataAsync (llm : LLM) (documents : List Doc)
    (cfg : GenConfig) : GenResult :=
  generateFromBase llm
    (((pyChunks cfg.batch_size documents.enum).map (processDocumentsSync llm)).flatten)
    documents cfg

/-! ## Fast path (`generate_synthetic_data_fast` internals) -/

/-- Python `str.split(sep)` for a multi-character separator (used for
`content.split('\n\n')`): non-overlapping, left to right, keeping empties. -/
def pySplitSubAux (sep : List Char) : Nat → List Char → List Char → List (List Char)
  | 0, acc, cs => [acc.reverse ++ cs]
  | fuel + 1, acc, cs =>
    if !sep.isEmpty && lstartsWith cs sep then
      acc.reverse :: pySplitSubAux sep fuel [] (cs.drop sep.length)
    else
      match cs with
      | [] => [acc.reverse]
      | c :: t => pySplitSubAux sep fuel (c :: acc) t

def pySplitSub (sep cs : List Char) : List (List Char) :=
  pySplitSubAux sep (cs.length + 1) [] cs

/-- Sentence ordering of `scored_sentences.sort(key=lambda x: x[0],
reverse=True)`: descending score, ties in original order (Python sort is
stable; the index component makes this a total order, so any correct sort
agrees). -/
def snipBefore (a b : Nat × Nat × List Char) : Bool :=
  b.1 < a.1 || (a.1 = b.1 && a.2.1 ≤ b.2.1)

def insertSorted (le : α → α → Bool) (x : α) : List α → List α
  | [] => [x]
  | y :: ys => if le x y then x :: y :: ys else y :: insertSorted le x ys

def insertionSort (le : α → α → Bool) : List α → List α
  | [] => []
  | x :: xs => insertSorted le x (insertionSort le xs)

/-- `_extract_relevant_snippet(question, content)` (the callers use the
default `max_length = 300`).  Note: unlike the relevance scorer, its
`key_terms` are not filtered by length. -/
def extractRelevantSnippet (question content : String) : String :=
  if ((questionTerms question.data).filter fun t => !(commonWords.contains t)).isEmpty then
    ⟨content.data.take 300⟩ ++ (if content.data.length > 300 then "..." else "")
  else
    match
      ((pySplitChar '.' content.data).take 20).enum.filterMap fun (is : Nat × List Char) =>
        if 0 < (((questionTerms question.data).filter fun t =>
            !(commonWords.contains t)).filter fun term =>
              containsSub (lowerStr is.2) term).length then
          some ((((questionTerms question.data).filter fun t =>
              !(commonWords.contains t)).filter fun term =>
                containsSub (lowerStr is.2) term).length, is.1, pyStripWs is.2)
        else none with
    | [] =>
      match ((pySplitSub ("\n\n".data) content.data).take 10).find? fun paragraph =>
          ((questionTerms question.data).filter fun t =>
            !(commonWords.contains t)).any fun term =>
              containsSub (lowerStr paragraph) term with
      | some paragraph =>
        if paragraph.length > 300 then ⟨paragraph.take 300⟩ ++ "..." else ⟨paragraph⟩
      | none =>
        ⟨content.data.take 300⟩ ++ (if content.data.length > 300 then "..." else "")
    | s :: ss =>
      if (joinWithSep ('.' :: [' '])
          (((insertionSort snipBefore (s :: ss)).take 3).map fun t => t.2.2)).length >
          300 then
        ⟨(joinWithSep ('.' :: [' '])
          (((insertionSort snipBefore (s :: ss)).take 3).map fun t => t.2.2)).take 300⟩
          ++ "..."
      else
        ⟨joinWithSep ('.' :: [' '])
          (((insertionSort snipBefore (s :: ss)).take 3).map fun t => t.2.2)⟩

/-- The best-document scan of `_extract_contexts_fast`: fold with strict
improvement (`score > best_score`), `best_score` starting at 0. -/
def bestDocScan (question_text : String) (documents : List Doc) :
    Option (Doc × Nat) × ℚ :=
  (documents.take 3).enum.foldl
    (fun (st : Option (Doc × Nat) × ℚ) (dd : Nat × Doc) =>
      if calculateRelevanceScore question_text.data dd.2.page_content.data > st.2 then
        (some (dd.2, dd.1), calculateRelevanceScore question_text.data dd.2.page_content.data)
      else st)
    (none, 0)

/-- The no-relevant-document fallback of `_extract_contexts_fast`. -/
def fastFallbackContexts (llm : LLM) (question_text : String)
    (documents : List Doc) : List CtxEntry :=
  match documents with
  | first_doc :: _ =>
    [{ text := createAiSummary llm (strTake 800 first_doc.page_content)
          question_text (getDocumentTitle first_doc 0),
       source := getDocumentTitle first_doc 0,
       document_index := 0 }]
  | [] =>
    [{ text := "No documents available for context extraction. Please upload documents to generate relevant context.",
       source := "System Message",
       document_index := -1 }]

/-- `_extract_contexts_fast(questions, documents)`. -/
def extractContextsFast (llm : LLM) (questions : List EvalQ)
    (documents : List Doc) : List CtxRecord :=
  questions.map fun question =>
    { question_id := question.id,
      contexts :=
        match bestDocScan question.question documents with
        | (some (best_doc, best_doc_index), best_score) =>
          if best_score > 0 then
            [{ text := createAiSummary llm
                  (extractRelevantSnippet question.question best_doc.page_content)
                  question.question (getDocumentTitle best_doc best_doc_index),
               source := getDocumentTitle best_doc best_doc_index,
               document_index := (best_doc_index : Int) }]
          else fastFallbackContexts llm question.question documents
        | (none, _) => fastFallbackContexts llm question.question documents }

/-- `line.split(':', 1)[1]`. -/
def afterFirstColon : List Char → List Char
  | [] => []
  | c :: t => if c = ':' then t else afterFirstColon t

/-- The complexity assignment of `_parse_comprehensive_response`:
`2 if simple else 3 if multi_context else 4`. -/
def sectionComplexity (sec : String) : Nat :=
  if sec = "simple" then 2 else if sec = "multi_context" then 3 else 4

/-- One line of the `_parse_comprehensive_response` loop, transforming the
state `(current_section, question_counter, questions, answers)`. -/
def parseStep (st : Option String × Nat × List EvalQ × List QARec)
    (line : List Char) : Option String × Nat × List EvalQ × List QARec :=
  let l := pyStripWs line
  if l.isEmpty then st
  else if containsSub (upperStr l) ("SIMPLE QUESTIONS".data) then
    (some "simple", st.2)
  else if containsSub (upperStr l) ("MULTI-CONTEXT QUESTIONS".data) then
    (some "multi_context", st.2)
  else if containsSub (upperStr l) ("REASONING QUESTIONS".data) then
    (some "reasoning", st.2)
  else if (lstartsWith l ['Q'] || lstartsWith l ['A']) && l.contains ':' then
    if lstartsWith l ['Q'] then
      match st.1 with
      | some sec =>
        (st.1, st.2.1 + 1,
          st.2.2.1 ++
            [{ id := "fast_q_" ++ pyNatRepr st.2.1,
               question := ⟨pyStripWs (afterFirstColon l)⟩,
               evolution_type := sec ++ "_evolution",
               complexity_level := sectionComplexity sec }],
          st.2.2.2)
      | none => st
    else
      match st.2.2.1.getLast? with
      | some last_question =>
        (st.1, st.2.1, st.2.2.1,
          st.2.2.2 ++
            [{ question_id := last_question.id,
               answer := ⟨pyStripWs (afterFirstColon l)⟩ }])
      | none => st
  else st

/-- `_parse_comprehensive_response(response_text, documents)` (the
`except` branch is unreachable in the model: every operation is total). -/
def parseComprehensiveResponse (response_text : String)
    (_documents : List Doc) : List EvalQ × List QARec × List CtxRecord :=
  match (pySplitChar '\n' response_text.data).foldl parseStep (none, 1, [], []) with
  | (_, _, [], _) =>
    ([{ id := "fast_fallback_1",
        question := "What are the key concepts discussed in the provided documents?",
        evolution_type := "simple_evolution", complexity_level := 2 }],
     [{ question_id := "fast_fallback_1",
        answer :=
          if response_text.data.length > 200 then strTake 200 response_text ++ "..."
          else response_text }],
     [])
  | (_, _, q :: qs, answers) => (q :: qs, answers, [])

/-- The section variable of the parse loop only ever holds one of the three
header-derived values. -/
def validSection (s : Option String) : Prop :=
  s = none ∨ s = some "simple" ∨ s = some "multi_context" ∨ s = some "reasoning"

/-! ## C5: cache-key derivation (`_generate_cache_key`)

`hashlib.md5` is embedded as a full MD5 implementation over byte lists
(naturals `< 256`), `str.encode()` as a UTF-8 encoder, and
`str(settings.dict())` as the pydantic-v1 dict repr with enum members shown
as `<ExecutionMode.X: 'x'>` and floats as exact decimal rationals. -/

def md5K : List Nat := [
  3614090360, 3905402710, 606105819, 3250441966, 4118548399, 1200080426, 2821735955, 4249261313,
  1770035416, 2336552879, 4294925233, 2304563134, 1804603682, 4254626195, 2792965006, 1236535329,
  4129170786, 3225465664, 643717713, 3921069994, 3593408605, 38016083, 3634488961, 3889429448,
  568446438, 3275163606, 4107603335, 1163531501, 2850285829, 4243563512, 1735328473, 2368359562,
  4294588738, 2272392833, 1839030562, 4259657740, 2763975236, 1272893353, 4139469664, 3200236656,
  681279174, 3936430074, 3572445317, 76029189, 3654602809, 3873151461, 530742520, 3299628645,
  4096336452, 1126891415, 2878612391, 4237533241, 1700485571, 2399980690, 4293915773, 2240044497,
  1873313359, 4264355552, 2734768916, 1309151649, 4149444226, 3174756917, 718787259, 3951481745]

def md5S : List Nat := [
  7, 12, 17, 22, 7, 12, 17, 22, 7, 12, 17, 22, 7, 12, 17, 22,
  5, 9, 14, 20, 5, 9, 14, 20, 5, 9, 14, 20, 5, 9, 14, 20,
  4, 11, 16, 23, 4, 11, 16, 23, 4, 11, 16, 23, 4, 11, 16, 23,
  6, 10, 15, 21, 6, 10, 15, 21, 6, 10, 15, 21, 6, 10, 15, 21]

/-- Combine the low `fuel` bits of two naturals with a per-bit function. -/
def bitZip (f : Nat → Nat → Nat) : Nat → Nat → Nat → Nat
  | 0, _, _ => 0
  | n + 1, a, b => f (a % 2) (b % 2) + 2 * bitZip f n (a / 2) (b / 2)

def land32 (a b : Nat) : Nat := bitZip (fun x y => x * y) 32 a b

def lor32 (a b : Nat) : Nat := bitZip (fun x y => x + y - x * y) 32 a b

def lxor32 (a b : Nat) : Nat := bitZip (fun x y => (x + y) % 2) 32 a b

def lnot32 (a : Nat) : Nat := lxor32 a 4294967295

/-- 32-bit left rotation by `s` of `a < 2^32`. -/
def rotl32 (s a : Nat) : Nat := (a * 2 ^ s + a / 2 ^ (32 - s)) % 2 ^ 32

def leBytes : Nat → Nat → List Nat
  | 0, _ => []
  | n + 1, v => v % 256 :: leBytes n (v / 256)

def leWord : List Nat → Nat
  | [b0, b1, b2, b3] => b0 + 256 * b1 + 65536 * b2 + 16777216 * b3
  | _ => 0

def md5F (i b c d : Nat) : Nat × Nat :=
  if i < 16 then (lor32 (land32 b c) (land32 (lnot32 b) d), i)
  else if i < 32 then (lor32 (land32 d b) (land32 (lnot32 d) c), (5 * i + 1) % 16)
  else if i < 48 then (lxor32 (lxor32 b c) d, (3 * i + 5) % 16)
  else (lxor32 c (lor32 b (lnot32 d)), (7 * i) % 16)

def md5Round (m : List Nat) (i : Nat) (st : Nat × Nat × Nat × Nat) :
    Nat × Nat × Nat × Nat :=
  match st with
  | (a, b, c, d) =>
    (d, (b + rotl32 (md5S.getD i 0)
          (((md5F i b c d).1 + a + md5K.getD i 0 + m.getD (md5F i b c d).2 0) % 2 ^ 32))
        % 2 ^ 32, b, c)

def md5Loop (m : List Nat) : Nat → Nat → Nat × Nat × Nat × Nat → Nat × Nat × Nat × Nat
  | 0, _, st => st
  | fuel + 1, i, st => md5Loop m fuel (i + 1) (md5Round m i st)

def md5Chunk (st : Nat × Nat × Nat × Nat) (chunk : List Nat) :
    Nat × Nat × Nat × Nat :=
  match md5Loop ((pyChunks 4 chunk).map leWord) 64 0 st with
  | (a, b, c, d) =>
    ((st.1 + a) % 2 ^ 32, (st.2.1 + b) % 2 ^ 32, (st.2.2.1 + c) % 2 ^ 32,
      (st.2.2.2 + d) % 2 ^ 32)

def md5Pad (msg : List Nat) : List Nat :=
  msg ++ 128 :: List.replicate ((56 + 64 - (msg.length + 1) % 64) % 64) 0 ++
    leBytes 8 (msg.length * 8)

def md5Init : Nat × Nat × Nat × Nat := (1732584193, 4023233417, 2562383102, 271733878)

def md5State (msg : List Nat) : Nat × Nat × Nat × Nat :=
  (pyChunks 64 (md5Pad msg)).foldl md5Chunk md5Init

def md5Digest (msg : List Nat) : List Nat :=
  match md5State msg with
  | (a, b, c, d) => leBytes 4 a ++ leBytes 4 b ++ leBytes 4 c ++ leBytes 4 d

def hexChar (n : Nat) : Char :=
  if n < 10 then digitChar n
  else if n = 10 then 'a' else if n = 11 then 'b' else if n = 12 then 'c'
  else if n = 13 then 'd' else if n = 14 then 'e' else 'f'

/-- `hashlib.md5(msg).hexdigest()`. -/
def hexdigestOf (msg : List Nat) : List Char :=
  (md5Digest msg).flatMap fun b => [hexChar (b / 16), hexChar (b % 16)]

/-- `str.encode()`: UTF-8 bytes of one character. -/
def utf8EncodeChar (c : Char) : List Nat :=
  if c.toNat < 128 then [c.toNat]
  else if c.toNat < 2048 then [192 + c.toNat / 64, 128 + c.toNat % 64]
  else if c.toNat < 65536 then
    [224 + c.toNat / 4096, 128 + c.toNat / 64 % 64, 128 + c.toNat % 64]
  else
    [240 + c.toNat / 262144, 128 + c.toNat / 4096 % 64, 128 + c.toNat / 64 % 64,
      128 + c.toNat % 64]

def utf8Encode (s : List Char) : List Nat := s.flatMap utf8EncodeChar

inductive ExecutionMode where
  | concurrent
  | sequential
deriving DecidableEq

/-- The `GenerationSettings` pydantic model (floats as exact rationals). -/
structure GenerationSettings where
  execution_mode : ExecutionMode
  max_base_questions_per_doc : Nat
  simple_evolution_count : Nat
  multi_context_evolution_count : Nat
  reasoning_evolution_count : Nat
  temperature : ℚ
  max_tokens : Nat

/-- Exactly `k` decimal digits of `m % 10 ^ k`, most significant first. -/
def natDigitsPad : Nat → Nat → List Char
  | 0, _ => []
  | k + 1, m => natDigitsPad k (m / 10) ++ [digitChar (m % 10)]

def decExpAux : Nat → Nat → Nat → Nat
  | 0, _, k => k
  | fuel + 1, den, k => if den ∣ 10 ^ k then k else decExpAux fuel den (k + 1)

def decExp (den : Nat) : Nat := decExpAux 40 den 0

/-- Python `str` of a non-negative float modelled as an exact decimal
rational: integer part, `'.'`, then the fractional digits (a single `0` for
whole values, as in `str(2.0) = '2.0'`). -/
def decRepr (q : ℚ) : List Char :=
  if decExp q.den = 0 then natDigits q.num.toNat ++ ['.', '0']
  else
    natDigits (q.num.toNat * 10 ^ decExp q.den / q.den / 10 ^ decExp q.den) ++
      '.' :: natDigitsPad (decExp q.den)
        (q.num.toNat * 10 ^ decExp q.den / q.den % 10 ^ decExp q.den)

/-- Inverse reading of `decRepr`, used to prove it injective. -/
def decVal (s : List Char) : ℚ :=
  match pySplitChar '.' s with
  | [ip, fp] => (digitsToNat ip : ℚ) + (digitsToNat fp : ℚ) / 10 ^ fp.length
  | _ => 0

/-- `repr` of an `ExecutionMode` member inside `str(settings.dict())`
(pydantic v1 keeps the enum member, whose repr is `<ExecutionMode.X: 'x'>`). -/
def modeRepr : ExecutionMode → List Char
  | .concurrent => "<ExecutionMode.CONCURRENT: 'concurrent'>".data
  | .sequential => "<ExecutionMode.SEQUENTIAL: 'sequential'>".data

/-- `str(settings.dict())`. -/
def settingsDictStr (s : GenerationSettings) : List Char :=
  "\x7b'execution_mode': ".data ++ modeRepr s.execution_mode ++
    ", 'max_base_questions_per_doc': ".data ++ natDigits s.max_base_questions_per_doc ++
    ", 'simple_evolution_count': ".data ++ natDigits s.simple_evolution_count ++
    ", 'multi_context_evolution_count': ".data ++ natDigits s.multi_context_evolution_count ++
    ", 'reasoning_evolution_count': ".data ++ natDigits s.reasoning_evolution_count ++
    ", 'temperature': ".data ++ decRepr s.temperature ++
    ", 'max_tokens': ".data ++ natDigits s.max_tokens ++ "\x7d".data

/-- The byte sequence fed to `hashlib.md5` by `_generate_cache_key`. -/
def cacheMaterial (documents : List Doc)
    (settings : Option GenerationSettings) : List Nat :=
  (documents.map fun d => utf8Encode d.page_content.data).flatten ++
    match settings with
    | some s => utf8Encode (settingsDictStr s)
    | none => []

/-- `_generate_cache_key(documents, settings)`. -/
def generateCacheKey (documents : List Doc)
    (settings : Option GenerationSettings) : String :=
  "evolsynth:" ++ ⟨hexdigestOf (cacheMaterial documents settings)⟩

def utf8DecodeNats : Nat → List Nat → List Nat
  | 0, _ => []
  | _ + 1, [] => []
  | fuel + 1, b :: rest =>
    if b < 128 then b :: utf8DecodeNats fuel rest
    else if b < 224 then
      match rest with
      | b2 :: rest2 => ((b - 192) * 64 + (b2 - 128)) :: utf8DecodeNats fuel rest2
      | [] => []
    else if b < 240 then
      match rest with
      | b2 :: b3 :: rest3 =>
        ((b - 224) * 4096 + (b2 - 128) * 64 + (b3 - 128)) :: utf8DecodeNats fuel rest3
      | _ => []
    else
      match rest with
      | b2 :: b3 :: b4 :: rest4 =>
        ((b - 240) * 262144 + (b2 - 128) * 4096 + (b3 - 128) * 64 + (b4 - 128)) ::
          utf8DecodeNats fuel rest4
      | _ => []

/-! ## Theorems -/

theorem pyMin_eq_min (a b : ℚ) : pyMin a b = min a b := by
  rw [pyMin, min_def]

theorem pyMax_eq_max (a b : ℚ) : pyMax a b = max a b := by
  rw [pyMax, max_def]

theorem foldl_add_eq_sum (l : List (List Char)) (f : List Char → ℚ) (s : ℚ) :
    l.foldl (fun acc t => acc + f t) s = s + (l.map f).sum := by
  induction l generalizing s with
  | nil => simp
  | cons x xs ih => simp [List.foldl_cons, ih, add_assoc]

theorem mem_keyTermsOf_ne_nil {q : List Char} {t : List Char}
    (h : t ∈ keyTermsOf q) : t ≠ [] := by
  have hlen : t.length > 2 := by
    have := List.of_mem_filter h
    simpa using this
  intro hnil
  simp [hnil] at hlen

theorem pyCount_nil {t : List Char} (h : t ≠ []) : pyCount [] t = 0 := by
  cases t with
  | nil => exact absurd rfl h
  | cons c cs => simp [pyCount, countOccAux, lstartsWith]

theorem termScore_nonneg (cl t : List Char) : 0 ≤ termScore cl t := by
  unfold termScore
  split
  · have h1 : (0 : ℚ) ≤ pyMin ((pyCount cl t : ℚ) * 2) 10 := by
      rw [pyMin_eq_min]
      apply le_min
      · positivity
      · norm_num
    have h2 : (0 : ℚ) ≤
        (if pyFind cl t < 200 then (3 : ℚ)
         else if pyFind cl t < 500 then 1 else 0) := by
      split
      · norm_num
      · split <;> norm_num
    linarith
  · exact le_refl 0

theorem calculateRelevanceScore_eq_sum (q c : List Char) :
    calculateRelevanceScore q c =
      ((keyTermsOf q).map (termScore (lowerStr c))).sum /
        pyMax ((c.length : ℚ) / 1000) 1 := by
  unfold calculateRelevanceScore
  by_cases hq : q.isEmpty
  · have hq' : q = [] := by simpa using hq
    subst hq'
    have hkt : keyTermsOf [] = [] := by decide
    simp [hkt]
  · by_cases hc : c.isEmpty
    · have hc' : c = [] := by simpa using hc
      subst hc'
      rw [if_pos (by simp)]
      have hz : ∀ x ∈ (keyTermsOf q).map (termScore (lowerStr [])), x = 0 := by
        intro x hx
        obtain ⟨t, ht, rfl⟩ := List.mem_map.mp hx
        have hne : t ≠ [] := mem_keyTermsOf_ne_nil ht
        simp [termScore, lowerStr, pyCount_nil hne]
      rw [List.sum_eq_zero hz, zero_div]
    · rw [if_neg (by simp_all)]
      by_cases hk : (keyTermsOf q).isEmpty
      · have hk' : keyTermsOf q = [] := by simpa using hk
        simp [hk']
      · rw [if_neg (by simpa using hk)]
        rw [foldl_add_eq_sum, zero_add]

/-- C8.  The claim's formula fails on the code: the source divides by
`max(len(content)/1000, 1)`, not by `len(content)/1000`; on a 7-character
content the two disagree (`5` versus `5000/7`). -/
theorem relevance_score_counterexample :
    calculateRelevanceScore ("What is Borovia?".data) ("Borovia".data) = 5 ∧
      relevanceScoreSpecAsStated ("What is Borovia?".data) ("Borovia".data) = 5000 / 7 ∧
      (5 : ℚ) ≠ 5000 / 7 := by
  have hk : keyTermsOf ("What is Borovia?".data) = ["borovia".data] := by decide
  have h1 : pyCount (lowerStr ("Borovia".data)) ("borovia".data) = 1 := by decide
  have h2 : pyFind (lowerStr ("Borovia".data)) ("borovia".data) = 0 := by decide
  have hlen : ("Borovia".data).length = 7 := by decide
  refine ⟨?_, ?_, by norm_num⟩
  · rw [calculateRelevanceScore_eq_sum, hk]
    simp only [List.map_cons, List.map_nil, List.sum_cons, List.sum_nil,
      termScore, h1, h2, hlen]
    norm_num [pyMin, pyMax]
  · rw [relevanceScoreSpecAsStated, hk]
    simp only [List.map_cons, List.map_nil, List.sum_cons, List.sum_nil,
      h1, h2, hlen]
    norm_num [pyMin]

/-- C8 (amended).  `_calculate_relevance_score` is a pure deterministic
function of the two strings, always non-negative, and equals: the sum over
each distinct surviving question term (stopwords removed, length > 2) that
occurs in the content of `min(occurrences*2, 10)` plus the positional bonus
(+3 if the first occurrence index is below 200, else +1 if below 500), the sum
divided by `max(content length / 1000, 1)`. -/
theorem relevance_score_amended (q c : List Char) :
    calculateRelevanceScore q c = relevanceScoreSpecAmended q c ∧
      0 ≤ calculateRelevanceScore q c := by
  constructor
  · rw [calculateRelevanceScore_eq_sum]
    rfl
  · rw [calculateRelevanceScore_eq_sum]
    apply div_nonneg
    · apply List.sum_nonneg
      intro x hx
      obtain ⟨t, _, rfl⟩ := List.mem_map.mp hx
      exact termScore_nonneg _ _
    · rw [pyMax_eq_max]
      exact le_of_lt (lt_of_lt_of_le one_pos (le_max_right _ _))

theorem firstInRange_bounds {l : List ℚ} {v : ℚ}
    (h : firstInRange l = some v) : 1 ≤ v ∧ v ≤ 10 := by
  induction l with
  | nil => simp [firstInRange] at h
  | cons x xs ih =>
    rw [firstInRange] at h
    split at h
    · cases h
      assumption
    · exact ih h

theorem stage3Raw_ne_zero {csL : List Char} {v : ℚ}
    (h : stage3Raw csL = some v) : v ≠ 0 := by
  have hb := firstInRange_bounds h
  intro hv
  rw [hv] at hb
  exact absurd hb.1 (by norm_num)

/-- C7 (amended).  `_extract_numerical_score` equals the staged specification
in which the first stage whose extracted value is nonzero wins (clamped to
[1, 9]), a stage match with value 0 being skipped by Python falsiness, with
the keyword map and `min(8, fallback)` as final fallbacks. -/
theorem extract_score_amended (text : String) (fallback : ℚ) :
    extractNumericalScore text fallback = extractScoreSpecAmended text fallback := by
  unfold extractNumericalScore extractScoreSpecAmended extractStage123 extractStage12
  rcases h1 : stage1Raw (lowerStr text.data) with _ | v1 <;>
    rcases h2 : stage2Raw (lowerStr text.data) with _ | v2 <;>
    rcases h3 : stage3Raw (lowerStr text.data) with _ | v3 <;>
    simp only [optTruthy, firstNonzeroQ]
  · simp
  · have hv3 := stage3Raw_ne_zero h3
    simp [hv3]
  · by_cases hv2 : v2 = 0 <;> simp [hv2]
  · have hv3 := stage3Raw_ne_zero h3
    by_cases hv2 : v2 = 0 <;> simp [hv2, hv3]
  · by_cases hv1 : v1 = 0 <;> simp [hv1]
  · have hv3 := stage3Raw_ne_zero h3
    by_cases hv1 : v1 = 0 <;> simp [hv1, hv3]
  · by_cases hv1 : v1 = 0 <;> by_cases hv2 : v2 = 0 <;> simp [hv1, hv2]
  · have hv3 := stage3Raw_ne_zero h3
    by_cases hv1 : v1 = 0 <;> by_cases hv2 : v2 = 0 <;> simp [hv1, hv2, hv3]

/-- C7.  The claim as stated fails: on `"Score: 0, rated 7/9"` the first stage
(the `Score:` pattern) matches with value 0, so by the claim the result would
be 0; the code treats the extracted 0.0 as falsy, falls through to the slash
stage and returns 7. -/
theorem extract_score_counterexample :
    stage1Raw (lowerStr ("Score: 0, rated 7/9".data)) = some 0 ∧
      extractNumericalScore "Score: 0, rated 7/9" 5 = 7 ∧
      extractScoreSpecAsStated "Score: 0, rated 7/9" 5 = 0 ∧
      (7 : ℚ) ≠ 0 := by
  have e1 : scanScoreColonP ((lowerStr ("Score: 0, rated 7/9".data)).length + 1)
      (lowerStr ("Score: 0, rated 7/9".data)) = some (['0'], []) := by decide
  have e2 : scanSlashScoreP ((lowerStr ("Score: 0, rated 7/9".data)).length + 1)
      (lowerStr ("Score: 0, rated 7/9".data)) = some (['7'], []) := by decide
  have d0 : digitsToNat ['0'] = 0 := by decide
  have d7 : digitsToNat ['7'] = 7 := by decide
  have dnil : digitsToNat [] = 0 := by decide
  have h1 : stage1Raw (lowerStr ("Score: 0, rated 7/9".data)) = some 0 := by
    rw [stage1Raw, e1]
    simp [numValue, d0, dnil]
  have h2 : stage2Raw (lowerStr ("Score: 0, rated 7/9".data)) = some 7 := by
    rw [stage2Raw, e2]
    simp [numValue, d7, dnil]
  have h123 : extractStage123 (lowerStr ("Score: 0, rated 7/9".data)) = some 7 := by
    rw [extractStage123, extractStage12, h1, h2]
    simp [optTruthy]
  refine ⟨h1, ?_, ?_, by norm_num⟩
  · rw [extractNumericalScore, h123]
    norm_num [pyMax, pyMin]
  · rw [extractScoreSpecAsStated, h1]
    simp only [firstSomeQ]
    norm_num [pyMin]

theorem keywordScore_bounds (tl : List Char) (fb : ℚ) (hfb : 1 ≤ fb) :
    1 ≤ keywordScore tl fb ∧ keywordScore tl fb ≤ 9 := by
  unfold keywordScore
  split
  · norm_num
  split
  · norm_num
  split
  · norm_num
  split
  · norm_num
  split
  · norm_num
  rw [pyMin_eq_min]
  constructor
  · exact le_min (by norm_num) hfb
  · exact le_trans (min_le_left _ _) (by norm_num)

theorem extractNumericalScore_bounds (text : String) (fb : ℚ) (hfb : 1 ≤ fb) :
    1 ≤ extractNumericalScore text fb ∧ extractNumericalScore text fb ≤ 9 := by
  unfold extractNumericalScore
  rcases h : extractStage123 (lowerStr text.data) with _ | v
  · exact keywordScore_bounds _ _ hfb
  · dsimp only
    by_cases hv : v = 0
    · simp only [hv, if_pos rfl]
      exact keywordScore_bounds _ _ hfb
    · rw [if_neg hv, pyMax_eq_max, pyMin_eq_min]
      constructor
      · exact le_max_left _ _
      · exact max_le (by norm_num) (le_trans (min_le_left _ _) (by norm_num))

theorem evaluateSingleMetric_bounds (judge : String → String) (q : EvalQ)
    (answer : String) (metric : String) :
    1 ≤ evaluateSingleMetric judge q answer metric ∧
      evaluateSingleMetric judge q answer metric ≤ 8.8 := by
  unfold evaluateSingleMetric evaluateQuestionQuality evaluateAnswerAccuracy
    evaluateEvolutionEffectiveness
  have hb1 := extractNumericalScore_bounds
    ⟨pyStripWs (judge (questionQualityPrompt q)).data⟩ 6.5 (by norm_num)
  have hb2 := extractNumericalScore_bounds
    ⟨pyStripWs (judge (answerAccuracyPrompt q answer)).data⟩ 6 (by norm_num)
  have hb3 := extractNumericalScore_bounds
    ⟨pyStripWs (judge (evolutionEffectivenessPrompt q)).data⟩ 6.5 (by norm_num)
  split
  · rw [pyMin_eq_min]
    exact ⟨le_min (by norm_num) hb1.1, min_le_left _ _⟩
  split
  · split
    · norm_num
    · rw [pyMin_eq_min]
      refine ⟨le_min (by norm_num) hb2.1, le_trans (min_le_left _ _) (by norm_num)⟩
  split
  · rw [pyMin_eq_min]
    refine ⟨le_min (by norm_num) hb3.1, le_trans (min_le_left _ _) (by norm_num)⟩
  · norm_num

theorem evaluateSingleMetric_cap_aa (judge : String → String) (q : EvalQ)
    (answer : String) :
    evaluateSingleMetric judge q answer "answer_accuracy" ≤ 8.5 := by
  unfold evaluateSingleMetric evaluateAnswerAccuracy
  rw [if_neg (by decide), if_pos rfl]
  split
  · norm_num
  · rw [pyMin_eq_min]
    exact le_trans (min_le_left _ _) (by norm_num)

theorem evaluateSingleMetric_cap_ee (judge : String → String) (q : EvalQ)
    (answer : String) :
    evaluateSingleMetric judge q answer "evolution_effectiveness" ≤ 8.7 := by
  unfold evaluateSingleMetric evaluateEvolutionEffectiveness
  rw [if_neg (by decide), if_neg (by decide), if_pos rfl, pyMin_eq_min]
  exact le_trans (min_le_left _ _) (by norm_num)

/-- C2.  The per-metric secondary caps are applied to the raw (pre-0.95)
scores for every judge-LLM output: every raw `question_quality` score is at
most 8.8, every raw `answer_accuracy` score at most 8.5, and every raw
`evolution_effectiveness` score at most 8.7. -/
theorem per_metric_secondary_caps (judge : String → String) (qs : List EvalQ)
    (qas : List QARec) (metrics : List String) :
    (∀ s ∈ metricScoresFor judge qs qas metrics "question_quality", s ≤ 8.8) ∧
      (∀ s ∈ metricScoresFor judge qs qas metrics "answer_accuracy", s ≤ 8.5) ∧
      (∀ s ∈ metricScoresFor judge qs qas metrics "evolution_effectiveness",
        s ≤ 8.7) := by
  refine ⟨?_, ?_, ?_⟩ <;>
    intro s hs <;>
    obtain ⟨q, _, hs2⟩ := List.mem_flatMap.mp hs <;>
    obtain ⟨m2, _, rfl⟩ := List.mem_map.mp hs2
  · exact (evaluateSingleMetric_bounds judge q (answerFor qas q.id)
      "question_quality").2
  · exact evaluateSingleMetric_cap_aa judge q (answerFor qas q.id)
  · exact evaluateSingleMetric_cap_ee judge q (answerFor qas q.id)

theorem judge_ten_extract : extractNumericalScore ⟨['1', '0']⟩ 6.5 = 9 := by
  have hlow : lowerStr (['1', '0'] : List Char) = ['1', '0'] := by decide
  have hs1 : scanScoreColonP ((['1', '0'] : List Char).length + 1) ['1', '0'] = none := by
    decide
  have hs2 : scanSlashScoreP ((['1', '0'] : List Char).length + 1) ['1', '0'] = none := by
    decide
  have hs3 : scanAllNumsP ((['1', '0'] : List Char).length + 1) false ['1', '0'] =
      [(['1', '0'], [])] := by decide
  have hd : digitsToNat ['1', '0'] = 10 := by decide
  have hdn : digitsToNat ([] : List Char) = 0 := by decide
  have h3 : stage3Raw ['1', '0'] = some 10 := by
    rw [stage3Raw, hs3]
    simp [numValue, hd, hdn, firstInRange]
  have h1 : stage1Raw ['1', '0'] = none := by
    rw [stage1Raw, hs1]
    rfl
  have h2 : stage2Raw ['1', '0'] = none := by
    rw [stage2Raw, hs2]
    rfl
  have h12 : extractStage12 ['1', '0'] = none := by
    rw [extractStage12, h1, h2]
    rfl
  have h123 : extractStage123 ['1', '0'] = some 10 := by
    rw [extractStage123, h12, h3]
    rfl
  unfold extractNumericalScore
  dsimp only
  rw [hlow, h123]
  norm_num [pyMax, pyMin]

theorem judge_ten_qq :
    evaluateSingleMetric (fun _ => "10")
      ⟨"q1", "What is X?", "simple_evolution", 2⟩ "" "question_quality" = 8.8 := by
  unfold evaluateSingleMetric
  rw [if_pos rfl]
  unfold evaluateQuestionQuality
  dsimp only
  have hstrip : pyStripWs (("10" : String)).data = ['1', '0'] := by decide
  rw [hstrip, judge_ten_extract]
  norm_num [pyMin]

theorem judge_ten_detailed :
    detailedResults (fun _ => "10")
        [⟨"q1", "What is X?", "simple_evolution", 2⟩] [] ["question_quality"] =
      [("q1", [("question_quality", (8.8 : ℚ))])] := by
  unfold detailedResults
  simp [answerFor, judge_ten_qq]

theorem judge_ten_scores :
    metricScoresFor (fun _ => "10")
        [⟨"q1", "What is X?", "simple_evolution", 2⟩] [] ["question_quality"]
        "question_quality" = [(8.8 : ℚ)] := by
  unfold metricScoresFor
  simp [answerFor, judge_ten_qq]

theorem safeguardScore_id {x : ℚ} (h : x ≤ 0.95) : safeguardScore x = x := by
  unfold safeguardScore
  rw [if_neg (by linarith), if_neg (by linarith)]

theorem overallScore_bounds (judge : String → String) (qs : List EvalQ)
    (qas : List QARec) (metrics : List String) (m : String) :
    0 ≤ overallScore judge qs qas metrics m ∧
      overallScore judge qs qas metrics m ≤ 0.95 := by
  unfold overallScore
  split
  · norm_num
  · rw [pyMax_eq_max, pyMin_eq_min]
    constructor
    · exact le_max_left _ _
    · exact max_le (by norm_num) (min_le_left _ _)

/-- C1 (amended).  The overall per-metric scores in the evaluation result lie
in [0, 0.95] and, whenever the metric has raw scores, equal the raw-score
average normalized via `(avg - 1)/8`, capped at 0.95 and floored at 0 (the
final safeguard pass never changes them); the per-question-per-metric scores
in `detailed_results`, however, stay on the raw 1-9 scale: each lies in
[1, 8.8] and hence always exceeds 0.95. -/
theorem evaluation_scores_amended (judge : String → String) (qs : List EvalQ)
    (qas : List QARec) (metrics : List String) :
    (∀ m : String, 0 ≤ finalOverallScore judge qs qas metrics m ∧
        finalOverallScore judge qs qas metrics m ≤ 0.95) ∧
      (∀ m : String, ¬(metricScoresFor judge qs qas metrics m).isEmpty →
        finalOverallScore judge qs qas metrics m =
          pyMax 0 (pyMin 0.95
            (((metricScoresFor judge qs qas metrics m).sum /
                (metricScoresFor judge qs qas metrics m).length - 1) / 8))) ∧
      (∀ p ∈ detailedResults judge qs qas metrics, ∀ ms ∈ p.2,
        1 ≤ ms.2 ∧ ms.2 ≤ 8.8 ∧ 0.95 < ms.2) := by
  refine ⟨?_, ?_, ?_⟩
  · intro m
    have hb := overallScore_bounds judge qs qas metrics m
    unfold finalOverallScore
    rw [safeguardScore_id hb.2]
    exact hb
  · intro m hm
    have hb := overallScore_bounds judge qs qas metrics m
    unfold finalOverallScore
    rw [safeguardScore_id hb.2]
    unfold overallScore
    rw [if_neg hm]
  · intro p hp ms hms
    obtain ⟨q, _, rfl⟩ := List.mem_map.mp hp
    dsimp only at hms
    obtain ⟨m, _, rfl⟩ := List.mem_map.mp hms
    have hb := evaluateSingleMetric_bounds judge q (answerFor qas q.id) m
    exact ⟨hb.1, hb.2, by linarith [hb.1]⟩

/-- C1.  The claim as stated fails: with a judge that always answers `"10"`,
the per-question `question_quality` entry of `detailed_results` is the raw
capped score 8.8, which is outside [0, 0.95]; only the overall score is
normalized and capped at 0.95. -/
theorem evaluation_detail_scale_counterexample :
    detailedResults (fun _ => "10")
        [⟨"q1", "What is X?", "simple_evolution", 2⟩] [] ["question_quality"] =
      [("q1", [("question_quality", (8.8 : ℚ))])] ∧
      ¬((8.8 : ℚ) ≤ 0.95) ∧
      finalOverallScore (fun _ => "10")
        [⟨"q1", "What is X?", "simple_evolution", 2⟩] [] ["question_quality"]
        "question_quality" = 0.95 := by
  refine ⟨judge_ten_detailed, by norm_num, ?_⟩
  unfold finalOverallScore overallScore
  rw [judge_ten_scores]
  norm_num [pyMax, pyMin, safeguardScore]

/-- C1 witness: the amended theorem applied to the always-"10" judge. -/
theorem evaluation_scores_amended_witness :
    (1 : ℚ) ≤ 8.8 ∧ (8.8 : ℚ) ≤ 8.8 ∧ (0.95 : ℚ) < 8.8 :=
  (evaluation_scores_amended (fun _ => "10")
      [⟨"q1", "What is X?", "simple_evolution", 2⟩] [] ["question_quality"]).2.2
    ("q1", [("question_quality", (8.8 : ℚ))])
    (by rw [judge_ten_detailed]; exact List.mem_singleton.mpr rfl)
    ("question_quality", (8.8 : ℚ)) (List.mem_singleton.mpr rfl)

/-- C2 witness: the caps theorem applied to the always-"10" judge. -/
theorem per_metric_secondary_caps_witness : (8.8 : ℚ) ≤ 8.8 :=
  (per_metric_secondary_caps (fun _ => "10")
      [⟨"q1", "What is X?", "simple_evolution", 2⟩] [] ["question_quality"]).1
    (8.8 : ℚ) (by rw [judge_ten_scores]; exact List.mem_singleton.mpr rfl)

theorem dropWhile_head_not {p : Char → Bool} {l : List Char} {x : Char}
    {xs : List Char} (h : l.dropWhile p = x :: xs) : p x = false := by
  induction l with
  | nil => simp [List.dropWhile] at h
  | cons c t ih =>
    rw [List.dropWhile] at h
    cases hc : p c
    · simp only [hc] at h
      injection h with h1 _
      rw [← h1]
      exact hc
    · simp only [hc] at h
      exact ih h

theorem cleanCore_getLast (x : String) :
    ∀ c, (cleanCore x).getLast? = some c → isEdgePunct c = false := by
  intro c h
  unfold cleanCore at h
  rw [List.getLast?_reverse] at h
  rcases hd : ((pyStripWs
      (collapseWs
        (boilerplatePatterns.foldl (fun acc pat => reSub pat acc)
          (pyStripWs x.data)))).dropWhile
      isEdgePunct).reverse.dropWhile isEdgePunct with _ | ⟨d, dt⟩
  · rw [hd] at h
    simp at h
  · rw [hd] at h
    simp at h
    rw [← h]
    exact dropWhile_head_not hd

theorem ensureTerminal_spec (cs : List Char)
    (h : ∀ c, cs.getLast? = some c → isEdgePunct c = false) :
    ensureTerminal cs = [] ∨
      ∃ c, (ensureTerminal cs).getLast? = some c ∧
        (c = '?' ∨ c = '.' ∨ c = '!') := by
  unfold ensureTerminal
  by_cases hemp : cs.isEmpty
  · left
    rw [if_pos hemp]
    simpa using hemp
  · rw [if_neg hemp]
    right
    have hne : cs ≠ [] := by simpa using hemp
    rcases hl : cs.getLast? with _ | c
    · exact absurd (List.getLast?_eq_none_iff.mp hl) hne
    · have hcol : isEdgePunct c = false := h c hl
      have hcne : ¬c = ':' := by
        intro hcc
        rw [hcc] at hcol
        simp [isEdgePunct] at hcol
      by_cases hend : endsWithTerminal cs = true
      · rw [if_pos hend]
        refine ⟨c, hl, ?_⟩
        rw [endsWithTerminal, hl] at hend
        simp only [Bool.or_eq_true, decide_eq_true_eq] at hend
        rcases hend with ((h7 | h8) | h6) | h4
        · exact Or.inl h7
        · exact Or.inr (Or.inl h8)
        · exact Or.inr (Or.inr h6)
        · exact absurd h4 hcne
      · rw [if_neg hend]
        split
        · exact ⟨'?', List.getLast?_concat _, Or.inl rfl⟩
        · exact ⟨'.', List.getLast?_concat _, Or.inr (Or.inl rfl)⟩

/-- C10.  The claim fails: `clean` is not idempotent.  A leading `": "` hides
the conversational-starter pattern from the first pass (the `^Here's`
rule sees a colon at the line start); the first pass then strips the leading
colon, so the second pass strips `"Here's "` as well. -/
theorem clean_idempotence_counterexample :
    cleanBoilerplate ": Here's data" = "Here's data." ∧
      cleanBoilerplate "Here's data." = "data." ∧
      cleanBoilerplate (cleanBoilerplate ": Here's data") ≠
        cleanBoilerplate ": Here's data" := by
  refine ⟨by decide, by decide, ?_⟩
  intro h
  rw [show cleanBoilerplate ": Here's data" = "Here's data." from by decide] at h
  rw [show cleanBoilerplate "Here's data." = "data." from by decide] at h
  exact absurd h (by decide)

/-- C10 (amended).  `clean` is idempotent on representative boilerplate-laden
inputs (a conversational preamble, a meta-label, a label plus question, and an
already-clean question), though not on every string; and every cleaned result
is either empty or ends in terminal punctuation `?`, `.` or `!`. -/
theorem clean_idempotence_amended :
    (cleanBoilerplate (cleanBoilerplate "Certainly! Here's a version that works") =
        cleanBoilerplate "Certainly! Here's a version that works" ∧
      cleanBoilerplate (cleanBoilerplate "Question: How does gravity work") =
        cleanBoilerplate "Question: How does gravity work" ∧
      cleanBoilerplate (cleanBoilerplate "Evolved: What factors influence climate change") =
        cleanBoilerplate "Evolved: What factors influence climate change" ∧
      cleanBoilerplate (cleanBoilerplate "What are the main concepts discussed in this document?") =
        cleanBoilerplate "What are the main concepts discussed in this document?") ∧
    ∀ x : String, cleanBoilerplate x = "" ∨
      ∃ c, (cleanBoilerplate x).data.getLast? = some c ∧
        (c = '?' ∨ c = '.' ∨ c = '!') := by
  refine ⟨⟨by decide, by decide, by decide, by decide⟩, ?_⟩
  intro x
  rcases ensureTerminal_spec (cleanCore x) (cleanCore_getLast x) with h | ⟨c, hc1, hc2⟩
  · left
    unfold cleanBoilerplate
    rw [h]
  · right
    exact ⟨c, hc1, hc2⟩

theorem chunksOfAux_flatten {α : Type} {bs : Nat} (hbs : 1 ≤ bs) :
    ∀ (fuel : Nat) (l : List α), l.length < fuel →
      (chunksOfAux bs fuel l).flatten = l := by
  intro fuel
  induction fuel with
  | zero => intro l h; omega
  | succ f ih =>
    intro l h
    cases l with
    | nil => rfl
    | cons x xs =>
      show ((x :: xs).take bs :: chunksOfAux bs f ((x :: xs).drop bs)).flatten = x :: xs
      rw [List.flatten_cons, ih ((x :: xs).drop bs) ?hlen, List.take_append_drop]
      case hlen =>
        rw [List.length_drop]
        simp only [List.length_cons] at h ⊢
        omega

theorem pyChunks_flatten {α : Type} {bs : Nat} (hbs : 1 ≤ bs) (l : List α) :
    (pyChunks bs l).flatten = l :=
  chunksOfAux_flatten hbs (l.length + 1) l (Nat.lt_succ_self _)

theorem flatten_map_map {α β : Type} (f : α → β) :
    ∀ chunks : List (List α),
      (chunks.map fun b => b.map f).flatten = chunks.flatten.map f := by
  intro chunks
  exact (List.map_flatten f chunks).symm

theorem flatten_map_filterMap {α β : Type} (f : α → Option β) :
    ∀ chunks : List (List α),
      (chunks.map fun b => b.filterMap f).flatten = chunks.flatten.filterMap f := by
  intro chunks
  exact (List.filterMap_flatten f chunks).symm

theorem evolutionBatch_eq (llm : LLM) {bs : Nat} (hbs : 1 ≤ bs)
    (base_questions : List BaseQ) (evolution_type : String) (count : Nat) :
    evolutionBatch llm bs base_questions evolution_type count =
      processEvolutionSync llm (base_questions.take count) evolution_type := by
  unfold evolutionBatch
  simp only [processEvolutionSync]
  rw [flatten_map_filterMap, pyChunks_flatten hbs]

theorem pipelineAnswers_eq (llm : LLM) (evolved : List EvalQ)
    (documents : List Doc) {bs : Nat} (hbs : 1 ≤ bs) :
    pipelineAnswers llm evolved documents bs =
      generateAnswersSync llm evolved documents := by
  unfold pipelineAnswers
  simp only [generateAnswersSync]
  rw [flatten_map_map, pyChunks_flatten hbs]

/-- C6.  If every LLM invocation raises, every answer in the generation
result is the fixed fallback string, and the result has exactly as many
answers as evolved questions (the latter count identity holding for the
batched answer stage by construction). -/
theorem answers_fallback_and_count (llm : LLM) (documents : List Doc)
    (cfg : GenConfig) (hbs : 1 ≤ cfg.batch_size)
    (hfail : ∀ p, llm p = Except.error ()) :
    (∀ a ∈ (generateSyntheticDataAsync llm documents cfg).question_answers,
        a.answer = "Unable to generate answer based on provided context.") ∧
      (generateSyntheticDataAsync llm documents cfg).question_answers.length =
        (generateSyntheticDataAsync llm documents cfg).evolved_questions.length := by
  unfold generateSyntheticDataAsync generateFromBase
  dsimp only
  rw [pipelineAnswers_eq llm _ documents hbs]
  constructor
  · intro a ha
    unfold generateAnswersSync at ha
    obtain ⟨q, _, rfl⟩ := List.mem_map.mp ha
    rw [hfail]
  · unfold generateAnswersSync
    exact List.length_map _ _

/-- C6 witness: the always-raising client on one concrete document. -/
theorem answers_fallback_witness :
    (generateSyntheticDataAsync (fun _ => Except.error ())
        [⟨"Topic A.", "docA.txt", ""⟩] ⟨2, 1, 1, 1, 8⟩).question_answers.length =
      (generateSyntheticDataAsync (fun _ => Except.error ())
        [⟨"Topic A.", "docA.txt", ""⟩] ⟨2, 1, 1, 1, 8⟩).evolved_questions.length :=
  (answers_fallback_and_count (fun _ => Except.error ())
    [⟨"Topic A.", "docA.txt", ""⟩] ⟨2, 1, 1, 1, 8⟩ (by decide) (fun _ => rfl)).2

/-- C3.  Join integrity fails on the batched pipeline, and the code
contradicts the join-by-id design the data model documents: all four
evolution branches receive the same base-question objects and build evolved
ids from `id(question)`, so with the default evolution counts a single base
question yields four evolved questions sharing one id, each matched by four
answers and four context records instead of exactly one. -/
theorem join_integrity_code_bug :
    ((generateSyntheticDataAsync (fun _ => Except.error ())
        [⟨"Topic A.", "docA.txt", ""⟩] ⟨2, 1, 1, 1, 8⟩).evolved_questions.map
      fun q => q.id) = ["evolved_0", "evolved_0", "evolved_0", "evolved_0"] ∧
      ((generateSyntheticDataAsync (fun _ => Except.error ())
          [⟨"Topic A.", "docA.txt", ""⟩] ⟨2, 1, 1, 1, 8⟩).question_answers.filter
        fun a => a.question_id == "evolved_0").length = 4 ∧
      ((generateSyntheticDataAsync (fun _ => Except.error ())
          [⟨"Topic A.", "docA.txt", ""⟩] ⟨2, 1, 1, 1, 8⟩).question_contexts.filter
        fun c => c.question_id == "evolved_0").length = 4 := by
  refine ⟨by decide, by decide, by decide⟩

theorem parseStep_inv (st : Option String × Nat × List EvalQ × List QARec)
    (line : List Char) (hsec : validSection st.1)
    (hqs : ∀ eq ∈ st.2.2.1,
      eq.complexity_level = complexityFor eq.evolution_type) :
    validSection (parseStep st line).1 ∧
      ∀ eq ∈ (parseStep st line).2.2.1,
        eq.complexity_level = complexityFor eq.evolution_type := by
  unfold parseStep
  dsimp only
  split_ifs with h1 h2 h3 h4 h5 h6
  · exact ⟨hsec, hqs⟩
  · exact ⟨Or.inr (Or.inl rfl), hqs⟩
  · exact ⟨Or.inr (Or.inr (Or.inl rfl)), hqs⟩
  · exact ⟨Or.inr (Or.inr (Or.inr rfl)), hqs⟩
  · cases hs : st.1 with
    | none => exact ⟨hsec, hqs⟩
    | some sec =>
      refine ⟨by rw [hs] at hsec; exact hsec, ?_⟩
      intro eq heq
      rcases List.mem_append.mp heq with hin | hnew
      · exact hqs eq hin
      · have heqv := List.mem_singleton.mp hnew
        subst heqv
        rw [hs] at hsec
        rcases hsec with hn | h_s | h_m | h_r
        · cases hn
        · injection h_s with hv
          subst hv
          show sectionComplexity "simple" = complexityFor ("simple" ++ "_evolution")
          decide
        · injection h_m with hv
          subst hv
          show sectionComplexity "multi_context" =
            complexityFor ("multi_context" ++ "_evolution")
          decide
        · injection h_r with hv
          subst hv
          show sectionComplexity "reasoning" = complexityFor ("reasoning" ++ "_evolution")
          decide
  · cases hl : st.2.2.1.getLast? with
    | none => exact ⟨hsec, hqs⟩
    | some lastq => exact ⟨hsec, hqs⟩
  · exact ⟨hsec, hqs⟩

theorem parseFold_inv :
    ∀ (lines : List (List Char)) (st : Option String × Nat × List EvalQ × List QARec),
      validSection st.1 →
      (∀ eq ∈ st.2.2.1, eq.complexity_level = complexityFor eq.evolution_type) →
      ∀ eq ∈ (lines.foldl parseStep st).2.2.1,
        eq.complexity_level = complexityFor eq.evolution_type := by
  intro lines
  induction lines with
  | nil => intro st _ hqs; exact hqs
  | cons line rest ih =>
    intro st hsec hqs
    rw [List.foldl_cons]
    have hstep := parseStep_inv st line hsec hqs
    exact ih (parseStep st line) hstep.1 hstep.2

/-- C4 (amended).  On the success path every evolved question gets the fixed
type-to-complexity mapping (simple→2, multi_context→3, reasoning→4,
complex→5), and every fast-mode parsed question satisfies the same mapping;
but on the per-item LLM-failure fallback the complexity is hardcoded to 2
regardless of evolution type, so every produced question has either the
mapped complexity or the fallback value 2. -/
theorem complexity_mapping_amended (llm : LLM) (question_batch : List BaseQ)
    (evolution_type : String) (response_text : String) (documents : List Doc) :
    (∀ eq ∈ processEvolutionSync llm question_batch evolution_type,
        eq.evolution_type = evolution_type ∧
          (eq.complexity_level = complexityFor evolution_type ∨
            eq.complexity_level = 2)) ∧
      ((∀ p, ∃ s, llm p = Except.ok s) →
        ∀ eq ∈ processEvolutionSync llm question_batch evolution_type,
          eq.complexity_level = complexityFor evolution_type) ∧
      (∀ eq ∈ (parseComprehensiveResponse response_text documents).1,
        eq.complexity_level = complexityFor eq.evolution_type) := by
  refine ⟨?_, ?_, ?_⟩
  · intro eq heq
    unfold processEvolutionSync at heq
    obtain ⟨q, _, hq⟩ := List.mem_filterMap.mp heq
    split at hq
    · cases hq
    · rcases hllm : llm (evolutionPrompt evolution_type q.question) with e | s <;>
        rw [hllm] at hq <;> cases hq <;> simp
  · intro hok eq heq
    unfold processEvolutionSync at heq
    obtain ⟨q, _, hq⟩ := List.mem_filterMap.mp heq
    split at hq
    · cases hq
    · obtain ⟨s, hs⟩ := hok (evolutionPrompt evolution_type q.question)
      rw [hs] at hq
      cases hq
      rfl
  · intro eq heq
    unfold parseComprehensiveResponse at heq
    rcases hfold : (pySplitChar '\n' response_text.data).foldl parseStep
        (none, 1, [], []) with ⟨sec, counter, qs, answers⟩
    rw [hfold] at heq
    cases qs with
    | nil =>
      simp only [List.mem_singleton] at heq
      subst heq
      decide
    | cons q qrest =>
      have := parseFold_inv (pySplitChar '\n' response_text.data) (none, 1, [], [])
        (Or.inl rfl) (by intro eq h; cases h) eq
      rw [hfold] at this
      exact this heq

/-- C4.  The claim fails on the per-item LLM-failure fallback: a
`reasoning_evolution` question produced through it carries complexity 2, not
the mapped 4. -/
theorem complexity_fallback_counterexample :
    processEvolutionSync (fun _ => Except.error ())
        [⟨5, "base_1_0", "Why?", "base_question", "1"⟩] "reasoning_evolution" =
      [⟨"evolved_5", "Why?", "reasoning_evolution", 2⟩] ∧
      complexityFor "reasoning_evolution" = 4 ∧ (2 : Nat) ≠ 4 := by
  refine ⟨by decide, by decide, by decide⟩

/-- C4 witness: the amended theorem applied to a concrete fast-mode
response. -/
theorem complexity_mapping_amended_witness :
    (⟨"fast_q_1", "What is A?", "simple_evolution", 2⟩ : EvalQ).complexity_level =
      complexityFor (⟨"fast_q_1", "What is A?", "simple_evolution", 2⟩ : EvalQ).evolution_type :=
  (complexity_mapping_amended (fun _ => Except.error ()) [] "simple_evolution"
      "SIMPLE QUESTIONS:\nQ1: What is A?" []).2.2
    ⟨"fast_q_1", "What is A?", "simple_evolution", 2⟩ (by decide)

/-! ## C9: fast-path relevance ordering -/

theorem termScore_pos (cl t : List Char) (hc : 0 < pyCount cl t) :
    0 < termScore cl t := by
  unfold termScore
  rw [if_pos hc]
  have h1 : (0 : ℚ) < pyMin ((pyCount cl t : ℚ) * 2) 10 := by
    rw [pyMin_eq_min]
    apply lt_min
    · have h1' : (1 : ℚ) ≤ (pyCount cl t : ℚ) := by exact_mod_cast hc
      linarith
    · norm_num
  have h2 : (0 : ℚ) ≤
      (if pyFind cl t < 200 then (3 : ℚ)
       else if pyFind cl t < 500 then 1 else 0) := by
    split
    · norm_num
    · split <;> norm_num
  linarith

theorem calculateRelevanceScore_pos (q c : List Char) (t : List Char)
    (ht : t ∈ keyTermsOf q) (hcnt : 0 < pyCount (lowerStr c) t) :
    0 < calculateRelevanceScore q c := by
  rw [calculateRelevanceScore_eq_sum]
  apply div_pos
  · calc (0 : ℚ) < termScore (lowerStr c) t := termScore_pos _ _ hcnt
    _ ≤ ((keyTermsOf q).map (termScore (lowerStr c))).sum :=
      List.single_le_sum
        (fun x hx => by
          obtain ⟨u, _, rfl⟩ := List.mem_map.mp hx
          exact termScore_nonneg _ _) _
        (List.mem_map_of_mem _ ht)
  · rw [pyMax_eq_max]
    exact lt_of_lt_of_le one_pos (le_max_right _ _)

theorem bestDocScan_dominant (qt : String) (d0 d1 d2 : Doc) (i : Fin 3)
    (hpos : 0 < calculateRelevanceScore qt.data
      ((([d0, d1, d2] : List Doc).get i).page_content.data))
    (hdom : ∀ j : Fin 3, j ≠ i →
      calculateRelevanceScore qt.data
          ((([d0, d1, d2] : List Doc).get j).page_content.data) <
        calculateRelevanceScore qt.data
          ((([d0, d1, d2] : List Doc).get i).page_content.data)) :
    bestDocScan qt [d0, d1, d2] =
      (some (([d0, d1, d2] : List Doc).get i, (i : Nat)),
        calculateRelevanceScore qt.data
          ((([d0, d1, d2] : List Doc).get i).page_content.data)) := by
  have henum : (([d0, d1, d2] : List Doc).take 3).enum =
      [(0, d0), (1, d1), (2, d2)] := rfl
  fin_cases i
  · have hp : 0 < calculateRelevanceScore qt.data d0.page_content.data := hpos
    have h1 : calculateRelevanceScore qt.data d1.page_content.data <
        calculateRelevanceScore qt.data d0.page_content.data := hdom 1 (by decide)
    have h2 : calculateRelevanceScore qt.data d2.page_content.data <
        calculateRelevanceScore qt.data d0.page_content.data := hdom 2 (by decide)
    unfold bestDocScan
    rw [henum]
    simp only [List.foldl_cons, List.foldl_nil]
    rw [if_pos hp, if_neg (not_lt.mpr (le_of_lt h1)),
      if_neg (not_lt.mpr (le_of_lt h2))]
    rfl
  · have hp : 0 < calculateRelevanceScore qt.data d1.page_content.data := hpos
    have h1 : calculateRelevanceScore qt.data d0.page_content.data <
        calculateRelevanceScore qt.data d1.page_content.data := hdom 0 (by decide)
    have h2 : calculateRelevanceScore qt.data d2.page_content.data <
        calculateRelevanceScore qt.data d1.page_content.data := hdom 2 (by decide)
    unfold bestDocScan
    rw [henum]
    simp only [List.foldl_cons, List.foldl_nil]
    by_cases hc0 : calculateRelevanceScore qt.data d0.page_content.data > 0
    · rw [if_pos hc0, if_pos h1, if_neg (not_lt.mpr (le_of_lt h2))]
      rfl
    · rw [if_neg hc0, if_pos hp, if_neg (not_lt.mpr (le_of_lt h2))]
      rfl
  · have hp : 0 < calculateRelevanceScore qt.data d2.page_content.data := hpos
    have h1 : calculateRelevanceScore qt.data d0.page_content.data <
        calculateRelevanceScore qt.data d2.page_content.data := hdom 0 (by decide)
    have h2 : calculateRelevanceScore qt.data d1.page_content.data <
        calculateRelevanceScore qt.data d2.page_content.data := hdom 1 (by decide)
    unfold bestDocScan
    rw [henum]
    simp only [List.foldl_cons, List.foldl_nil]
    by_cases hc0 : calculateRelevanceScore qt.data d0.page_content.data > 0
    · rw [if_pos hc0]
      by_cases hc1 : calculateRelevanceScore qt.data d1.page_content.data >
          calculateRelevanceScore qt.data d0.page_content.data
      · rw [if_pos hc1, if_pos h2]
        rfl
      · rw [if_neg hc1, if_pos h1]
        rfl
    · rw [if_neg hc0]
      by_cases hc1 : calculateRelevanceScore qt.data d1.page_content.data > 0
      · rw [if_pos hc1, if_pos h2]
        rfl
      · rw [if_neg hc1, if_pos hp]
        rfl

/-- C9 (amended).  The fast path picks the document whose relevance score
strictly dominates the other two (among the first three documents): if a
surviving question term occurs in document i and document i's relevance score
is strictly greater than each other document's, then the returned context
entry carries document i's title and index.  Mere uniqueness of a term is not
enough (see the counterexample): strict score dominance is the actual
selection criterion. -/
theorem relevance_ordering_amended (llm : LLM) (q : EvalQ) (d0 d1 d2 : Doc)
    (i : Fin 3)
    (hterm : ∃ t ∈ keyTermsOf q.question.data,
      0 < pyCount (lowerStr ((([d0, d1, d2] : List Doc).get i).page_content.data)) t)
    (hdom : ∀ j : Fin 3, j ≠ i →
      calculateRelevanceScore q.question.data
          ((([d0, d1, d2] : List Doc).get j).page_content.data) <
        calculateRelevanceScore q.question.data
          ((([d0, d1, d2] : List Doc).get i).page_content.data)) :
    ((extractContextsFast llm [q] [d0, d1, d2]).map fun r =>
        r.contexts.map fun c => (c.source, c.document_index)) =
      [[(getDocumentTitle (([d0, d1, d2] : List Doc).get i) (i : Nat),
          ((i : Nat) : Int))]] := by
  obtain ⟨t, ht, hcnt⟩ := hterm
  have hpos : 0 < calculateRelevanceScore q.question.data
      ((([d0, d1, d2] : List Doc).get i).page_content.data) :=
    calculateRelevanceScore_pos _ _ t ht hcnt
  have hb := bestDocScan_dominant q.question d0 d1 d2 i hpos hdom
  unfold extractContextsFast
  simp only [List.map_cons, List.map_nil]
  rw [hb]
  simp only [List.map_cons, List.map_nil]
  rw [if_pos hpos]
  rfl

/-- C9.  The claim fails on the code: a unique rare term confined to one of
three documents does not force that document's selection.  On the claim's own
scenario question "What is the capital of Borovia?", with "Borovia" occurring
only in document 1, document 0 (rich in the non-unique term "capital") scores
13 against document 1's 5, so the fast path returns document 0's title
"common.txt", not "borovia.txt". -/
theorem relevance_ordering_counterexample :
    "borovia".data ∈ keyTermsOf ("What is the capital of Borovia?".data) ∧
      0 < pyCount (lowerStr ("Borovia is small.".data)) ("borovia".data) ∧
      pyCount (lowerStr ("capital capital capital capital capital".data))
        ("borovia".data) = 0 ∧
      pyCount (lowerStr ("Nothing relevant.".data)) ("borovia".data) = 0 ∧
      ((extractContextsFast (fun _ => Except.error ())
          [⟨"evolved_1", "What is the capital of Borovia?", "simple_evolution", 2⟩]
          [⟨"capital capital capital capital capital", "common.txt", ""⟩,
            ⟨"Borovia is small.", "borovia.txt", ""⟩,
            ⟨"Nothing relevant.", "other.txt", ""⟩]).map fun r =>
        r.contexts.map fun c => c.source) = [["common.txt"]] ∧
      getDocumentTitle ⟨"Borovia is small.", "borovia.txt", ""⟩ 1 = "borovia.txt" ∧
      ("common.txt" : String) ≠ "borovia.txt" := by
  have hk : keyTermsOf ("What is the capital of Borovia?".data) =
      ["capital".data, "borovia".data] := by decide
  have hs0 : calculateRelevanceScore ("What is the capital of Borovia?".data)
      ("capital capital capital capital capital".data) = 13 := by
    have hc1 : pyCount (lowerStr ("capital capital capital capital capital".data))
        ("capital".data) = 5 := by decide
    have hf1 : pyFind (lowerStr ("capital capital capital capital capital".data))
        ("capital".data) = 0 := by decide
    have hc2 : pyCount (lowerStr ("capital capital capital capital capital".data))
        ("borovia".data) = 0 := by decide
    have hlen : ("capital capital capital capital capital".data).length = 39 := by decide
    rw [calculateRelevanceScore_eq_sum, hk]
    simp only [List.map_cons, List.map_nil, List.sum_cons, List.sum_nil,
      termScore, hc1, hf1, hc2, hlen]
    norm_num [pyMin, pyMax]
  have hs1 : calculateRelevanceScore ("What is the capital of Borovia?".data)
      ("Borovia is small.".data) = 5 := by
    have hc1 : pyCount (lowerStr ("Borovia is small.".data)) ("capital".data) = 0 := by
      decide
    have hc2 : pyCount (lowerStr ("Borovia is small.".data)) ("borovia".data) = 1 := by
      decide
    have hf2 : pyFind (lowerStr ("Borovia is small.".data)) ("borovia".data) = 0 := by
      decide
    have hlen : ("Borovia is small.".data).length = 17 := by decide
    rw [calculateRelevanceScore_eq_sum, hk]
    simp only [List.map_cons, List.map_nil, List.sum_cons, List.sum_nil,
      termScore, hc1, hc2, hf2, hlen]
    norm_num [pyMin, pyMax]
  have hs2 : calculateRelevanceScore ("What is the capital of Borovia?".data)
      ("Nothing relevant.".data) = 0 := by
    have hc1 : pyCount (lowerStr ("Nothing relevant.".data)) ("capital".data) = 0 := by
      decide
    have hc2 : pyCount (lowerStr ("Nothing relevant.".data)) ("borovia".data) = 0 := by
      decide
    have hlen : ("Nothing relevant.".data).length = 17 := by decide
    rw [calculateRelevanceScore_eq_sum, hk]
    simp only [List.map_cons, List.map_nil, List.sum_cons, List.sum_nil,
      termScore, hc1, hc2, hlen]
    norm_num [pyMin, pyMax]
  have hb : bestDocScan "What is the capital of Borovia?"
      [⟨"capital capital capital capital capital", "common.txt", ""⟩,
        ⟨"Borovia is small.", "borovia.txt", ""⟩,
        ⟨"Nothing relevant.", "other.txt", ""⟩] =
      (some (⟨"capital capital capital capital capital", "common.txt", ""⟩, 0), 13) := by
    unfold bestDocScan
    simp only [List.take, List.enum, List.enumFrom, List.foldl_cons, List.foldl_nil]
    rw [hs0, hs1, hs2]
    norm_num
  refine ⟨by decide, by decide, by decide, by decide, ?_, by decide, by decide⟩
  unfold extractContextsFast
  simp only [List.map_cons, List.map_nil]
  rw [hb]
  dsimp only
  rw [if_pos (by norm_num : (13 : ℚ) > 0)]
  rfl

/-- C9 witness: the amended theorem applied to question "What is Borovia?"
and three concrete documents of which only the middle one scores. -/
theorem relevance_ordering_amended_witness :
    ((extractContextsFast (fun _ => Except.error ())
        [⟨"evolved_1", "What is Borovia?", "simple_evolution", 2⟩]
        [⟨"", "a.txt", ""⟩, ⟨"Borovia is small.", "borovia.txt", ""⟩,
          ⟨"", "c.txt", ""⟩]).map fun r =>
      r.contexts.map fun c => (c.source, c.document_index)) =
      [[("borovia.txt", (1 : Int))]] := by
  have hs1 : calculateRelevanceScore ("What is Borovia?".data)
      ("Borovia is small.".data) = 5 := by
    have hk : keyTermsOf ("What is Borovia?".data) = ["borovia".data] := by decide
    have hc : pyCount (lowerStr ("Borovia is small.".data)) ("borovia".data) = 1 := by
      decide
    have hf : pyFind (lowerStr ("Borovia is small.".data)) ("borovia".data) = 0 := by
      decide
    have hlen : ("Borovia is small.".data).length = 17 := by decide
    rw [calculateRelevanceScore_eq_sum, hk]
    simp only [List.map_cons, List.map_nil, List.sum_cons, List.sum_nil,
      termScore, hc, hf, hlen]
    norm_num [pyMin, pyMax]
  have hempty : calculateRelevanceScore ("What is Borovia?".data) ("".data) = 0 := rfl
  have happ := relevance_ordering_amended (fun _ => Except.error ())
      ⟨"evolved_1", "What is Borovia?", "simple_evolution", 2⟩
      ⟨"", "a.txt", ""⟩ ⟨"Borovia is small.", "borovia.txt", ""⟩ ⟨"", "c.txt", ""⟩ 1
      ⟨"borovia".data, by decide, by decide⟩
      (by
        intro j hj
        fin_cases j
        · have hlt : calculateRelevanceScore ("What is Borovia?".data) ("".data) <
              calculateRelevanceScore ("What is Borovia?".data)
                ("Borovia is small.".data) := by
            rw [hempty, hs1]; norm_num
          exact hlt
        · exact absurd rfl hj
        · have hlt : calculateRelevanceScore ("What is Borovia?".data) ("".data) <
              calculateRelevanceScore ("What is Borovia?".data)
                ("Borovia is small.".data) := by
            rw [hempty, hs1]; norm_num
          exact hlt)
  rw [happ]
  decide

theorem digitVal_digitChar (d : Nat) (h : d < 10) : digitVal (digitChar d) = d := by
  interval_cases d <;> rfl

theorem digitChar_ne_dot (n : Nat) : digitChar n ≠ '.' := by
  rcases n with _|_|_|_|_|_|_|_|_|n <;>
    first
      | decide
      | exact (by decide : ('9' : Char) ≠ '.')

theorem foldl_digits (ds : List Char) (a : Nat) :
    ds.foldl (fun a c => 10 * a + digitVal c) a =
      a * 10 ^ ds.length + digitsToNat ds := by
  induction ds generalizing a with
  | nil => simp [digitsToNat]
  | cons c cs ih =>
    simp only [List.foldl_cons, digitsToNat, List.length_cons]
    rw [ih (10 * a + digitVal c), ih (10 * 0 + digitVal c)]
    ring

theorem digitsToNat_append (xs ys : List Char) :
    digitsToNat (xs ++ ys) = digitsToNat xs * 10 ^ ys.length + digitsToNat ys := by
  unfold digitsToNat
  rw [List.foldl_append]
  exact foldl_digits ys _

theorem digitsToNat_natDigitsAux (fuel n : Nat) (h : n < 10 ^ fuel) :
    digitsToNat (natDigitsAux fuel n) = n := by
  induction fuel generalizing n with
  | zero => simp at h; simp [h, natDigitsAux, digitsToNat]
  | succ f ih =>
    unfold natDigitsAux
    by_cases h10 : n < 10
    · rw [if_pos h10]
      simp [digitsToNat, digitVal_digitChar n h10]
    · rw [if_neg h10]
      rw [digitsToNat_append]
      have hdiv : n / 10 < 10 ^ f := by
        rw [Nat.div_lt_iff_lt_mul (by norm_num)]
        calc n < 10 ^ (f + 1) := h
        _ = 10 ^ f * 10 := by ring
      rw [ih _ hdiv]
      simp [digitsToNat, digitVal_digitChar (n % 10) (Nat.mod_lt n (by norm_num))]
      omega

theorem digitsToNat_natDigits (n : Nat) : digitsToNat (natDigits n) = n :=
  digitsToNat_natDigitsAux (n + 1) n
    (lt_of_lt_of_le (Nat.lt_pow_self (by norm_num : (1 : Nat) < 10) n)
      (Nat.pow_le_pow_right (by norm_num) (Nat.le_succ n)))

theorem natDigits_inj {a b : Nat} (h : natDigits a = natDigits b) : a = b := by
  rw [← digitsToNat_natDigits a, ← digitsToNat_natDigits b, h]

theorem natDigitsPad_length (k m : Nat) : (natDigitsPad k m).length = k := by
  induction k generalizing m with
  | zero => rfl
  | succ k ih => simp [natDigitsPad, ih]

theorem digitsToNat_natDigitsPad (k m : Nat) :
    digitsToNat (natDigitsPad k m) = m % 10 ^ k := by
  induction k generalizing m with
  | zero => simp [natDigitsPad, digitsToNat, Nat.mod_one]
  | succ k ih =>
    unfold natDigitsPad
    rw [digitsToNat_append, ih]
    simp [digitsToNat, digitVal_digitChar (m % 10) (Nat.mod_lt m (by norm_num))]
    rw [Nat.pow_succ', Nat.mod_mul]
    ring

theorem mem_natDigitsAux_ne_dot (fuel n : Nat) :
    ∀ c ∈ natDigitsAux fuel n, c ≠ '.' := by
  induction fuel generalizing n with
  | zero => intro c hc; cases hc
  | succ f ih =>
    intro c hc
    unfold natDigitsAux at hc
    split at hc
    · rcases List.mem_singleton.mp hc with rfl
      exact digitChar_ne_dot _
    · rcases List.mem_append.mp hc with h | h
      · exact ih _ c h
      · rcases List.mem_singleton.mp h with rfl
        exact digitChar_ne_dot _

theorem mem_natDigits_ne_dot (n : Nat) : ∀ c ∈ natDigits n, c ≠ '.' :=
  mem_natDigitsAux_ne_dot (n + 1) n

theorem mem_natDigitsPad_ne_dot (k m : Nat) : ∀ c ∈ natDigitsPad k m, c ≠ '.' := by
  induction k generalizing m with
  | zero => intro c hc; cases hc
  | succ k ih =>
    intro c hc
    rcases List.mem_append.mp hc with h | h
    · exact ih _ c h
    · rcases List.mem_singleton.mp h with rfl
      exact digitChar_ne_dot _

theorem pySplitChar_no_sep (sep : Char) (xs : List Char)
    (h : ∀ c ∈ xs, c ≠ sep) : pySplitChar sep xs = [xs] := by
  induction xs with
  | nil => rfl
  | cons x xs ih =>
    unfold pySplitChar
    rw [ih fun c hc => h c (List.mem_cons_of_mem _ hc)]
    simp only [if_neg (h x (List.mem_cons_self x xs))]

theorem pySplitChar_one (sep : Char) (xs ys : List Char)
    (hx : ∀ c ∈ xs, c ≠ sep) (hy : ∀ c ∈ ys, c ≠ sep) :
    pySplitChar sep (xs ++ sep :: ys) = [xs, ys] := by
  induction xs with
  | nil =>
    show pySplitChar sep (sep :: ys) = [[], ys]
    unfold pySplitChar
    rw [pySplitChar_no_sep sep ys hy]
    simp
  | cons x xs ih =>
    show pySplitChar sep (x :: (xs ++ sep :: ys)) = [x :: xs, ys]
    unfold pySplitChar
    rw [ih fun c hc => hx c (List.mem_cons_of_mem _ hc)]
    simp only [if_neg (hx x (List.mem_cons_self x xs))]

theorem decVal_decRepr (q : ℚ) (h0 : 0 ≤ q)
    (hdvd : q.den ∣ 10 ^ decExp q.den) : decVal (decRepr q) = q := by
  have hnum : ((q.num.toNat : ℤ) : ℚ) = (q.num : ℚ) := by
    rw [Int.toNat_of_nonneg (Rat.num_nonneg.mpr h0)]
  have hden0 : (q.den : ℚ) ≠ 0 := by
    exact_mod_cast q.den_nz
  have hqden : (q.num : ℚ) = q * (q.den : ℚ) := by
    have h := Rat.num_div_den q
    rw [div_eq_iff hden0] at h
    exact h
  have hn0 : ((q.num.toNat : ℕ) : ℚ) = q * (q.den : ℚ) := by
    rw [show ((q.num.toNat : ℕ) : ℚ) = ((q.num.toNat : ℤ) : ℚ) by push_cast; ring,
      hnum, hqden]
  by_cases hk0 : decExp q.den = 0
  · have hden1 : q.den = 1 := Nat.dvd_one.mp (by simpa [hk0] using hdvd)
    unfold decRepr
    rw [if_pos hk0]
    unfold decVal
    rw [pySplitChar_one '.' (natDigits q.num.toNat) ['0']
      (mem_natDigits_ne_dot _) (by decide)]
    show (digitsToNat (natDigits q.num.toNat) : ℚ) +
      (digitsToNat ['0'] : ℚ) / 10 ^ (['0'] : List Char).length = q
    rw [digitsToNat_natDigits, show digitsToNat ['0'] = 0 from rfl]
    rw [hn0, hden1]
    push_cast
    ring
  · unfold decRepr
    rw [if_neg hk0]
    unfold decVal
    rw [pySplitChar_one '.' _ _ (mem_natDigits_ne_dot _) (mem_natDigitsPad_ne_dot _ _)]
    show (digitsToNat (natDigits (q.num.toNat * 10 ^ decExp q.den / q.den /
        10 ^ decExp q.den)) : ℚ) +
      (digitsToNat (natDigitsPad (decExp q.den)
        (q.num.toNat * 10 ^ decExp q.den / q.den % 10 ^ decExp q.den)) : ℚ) /
        10 ^ (natDigitsPad (decExp q.den)
          (q.num.toNat * 10 ^ decExp q.den / q.den % 10 ^ decExp q.den)).length = q
    rw [digitsToNat_natDigits, digitsToNat_natDigitsPad, natDigitsPad_length,
      Nat.mod_mod_of_dvd _ dvd_rfl]
    have hN : ((q.num.toNat * 10 ^ decExp q.den / q.den : ℕ) : ℚ) =
        q * 10 ^ decExp q.den := by
      rw [Nat.cast_div (Dvd.dvd.mul_left hdvd _) hden0]
      push_cast
      rw [hn0]
      field_simp
      rw [hqden]
      ring
    have hsplit := congrArg (fun x : ℕ => (x : ℚ))
      (Nat.div_add_mod (q.num.toNat * 10 ^ decExp q.den / q.den) (10 ^ decExp q.den))
    push_cast at hsplit
    rw [hN] at hsplit
    have hpow0 : ((10 : ℚ)) ^ decExp q.den ≠ 0 := by positivity
    field_simp
    linear_combination hsplit

theorem decRepr_inj {t u : ℚ} (h0t : 0 ≤ t) (h0u : 0 ≤ u)
    (hdt : t.den ∣ 10 ^ decExp t.den) (hdu : u.den ∣ 10 ^ decExp u.den)
    (h : decRepr t = decRepr u) : t = u := by
  rw [← decVal_decRepr t h0t hdt, ← decVal_decRepr u h0u hdu, h]

theorem char_toNat_lt (c : Char) : c.toNat < 1114112 := by
  show c.val.toNat < 1114112
  have h := c.valid
  rcases h with h | h
  · have : c.val.toNat < 55296 := by exact_mod_cast h
    omega
  · have : c.val.toNat < 1114112 := by exact_mod_cast h.2
    exact this

theorem utf8DecodeNats_encode (s : List Char) :
    ∀ fuel, s.length ≤ fuel →
      utf8DecodeNats fuel (utf8Encode s) = s.map Char.toNat := by
  induction s with
  | nil =>
    intro fuel _
    cases fuel <;> rfl
  | cons c cs ih =>
    intro fuel hf
    cases fuel with
    | zero => simp at hf
    | succ f =>
      have hlt : c.toNat < 1114112 := char_toNat_lt c
      have hrec := ih f (by simpa using Nat.lt_succ_iff.mp (Nat.lt_of_lt_of_le (Nat.lt_succ_of_le le_rfl) (by simpa using hf)))
      show utf8DecodeNats (f + 1) (utf8EncodeChar c ++ utf8Encode cs) =
        c.toNat :: cs.map Char.toNat
      unfold utf8EncodeChar
      by_cases h1 : c.toNat < 128
      · rw [if_pos h1]
        show utf8DecodeNats (f + 1) (c.toNat :: utf8Encode cs) = _
        unfold utf8DecodeNats
        rw [if_pos h1, hrec]
      · rw [if_neg h1]
        by_cases h2 : c.toNat < 2048
        · rw [if_pos h2]
          show utf8DecodeNats (f + 1)
            ((192 + c.toNat / 64) :: (128 + c.toNat % 64) :: utf8Encode cs) = _
          unfold utf8DecodeNats
          rw [if_neg (by omega), if_pos (by omega)]
          dsimp only
          rw [hrec]
          congr 1
          omega
        · rw [if_neg h2]
          by_cases h3 : c.toNat < 65536
          · rw [if_pos h3]
            show utf8DecodeNats (f + 1)
              ((224 + c.toNat / 4096) :: (128 + c.toNat / 64 % 64) ::
                (128 + c.toNat % 64) :: utf8Encode cs) = _
            unfold utf8DecodeNats
            rw [if_neg (by omega), if_neg (by omega), if_pos (by omega)]
            dsimp only
            rw [hrec]
            congr 1
            omega
          · rw [if_neg h3]
            show utf8DecodeNats (f + 1)
              ((240 + c.toNat / 262144) :: (128 + c.toNat / 4096 % 64) ::
                (128 + c.toNat / 64 % 64) :: (128 + c.toNat % 64) :: utf8Encode cs) = _
            unfold utf8DecodeNats
            rw [if_neg (by omega), if_neg (by omega), if_neg (by omega)]
            dsimp only
            rw [hrec]
            congr 1
            omega

theorem char_toNat_inj {a b : Char} (h : a.toNat = b.toNat) : a = b :=
  Char.ext (UInt32.ext h)

theorem utf8Encode_inj {s t : List Char} (h : utf8Encode s = utf8Encode t) :
    s = t := by
  have h1 := utf8DecodeNats_encode s (s.length + t.length) (by omega)
  have h2 := utf8DecodeNats_encode t (s.length + t.length) (by omega)
  rw [h] at h1
  rw [h1] at h2
  exact List.map_injective_iff.mpr (fun a b hab => char_toNat_inj hab) h2

theorem md5Chunk_lt (st : Nat × Nat × Nat × Nat) (chunk : List Nat) :
    (md5Chunk st chunk).1 < 2 ^ 32 ∧ (md5Chunk st chunk).2.1 < 2 ^ 32 ∧
      (md5Chunk st chunk).2.2.1 < 2 ^ 32 ∧ (md5Chunk st chunk).2.2.2 < 2 ^ 32 := by
  unfold md5Chunk
  rcases md5Loop ((pyChunks 4 chunk).map leWord) 64 0 st with ⟨a, b, c, d⟩
  exact ⟨Nat.mod_lt _ (by norm_num), Nat.mod_lt _ (by norm_num),
    Nat.mod_lt _ (by norm_num), Nat.mod_lt _ (by norm_num)⟩

theorem foldl_md5Chunk_lt (chunks : List (List Nat)) (st : Nat × Nat × Nat × Nat)
    (h : st.1 < 2 ^ 32 ∧ st.2.1 < 2 ^ 32 ∧ st.2.2.1 < 2 ^ 32 ∧ st.2.2.2 < 2 ^ 32) :
    (chunks.foldl md5Chunk st).1 < 2 ^ 32 ∧
      (chunks.foldl md5Chunk st).2.1 < 2 ^ 32 ∧
      (chunks.foldl md5Chunk st).2.2.1 < 2 ^ 32 ∧
      (chunks.foldl md5Chunk st).2.2.2 < 2 ^ 32 := by
  induction chunks generalizing st with
  | nil => exact h
  | cons c cs ih => exact ih _ (md5Chunk_lt st c)

theorem md5State_lt (msg : List Nat) :
    (md5State msg).1 < 2 ^ 32 ∧ (md5State msg).2.1 < 2 ^ 32 ∧
      (md5State msg).2.2.1 < 2 ^ 32 ∧ (md5State msg).2.2.2 < 2 ^ 32 :=
  foldl_md5Chunk_lt _ md5Init (by norm_num [md5Init])

/-- C5.  The input-sensitivity half of the claim is impossible: the key is an
MD5 hexdigest, so the key space is finite while document contents are not, and
two distinct single-document contents (with identical settings) must share a
key.  The collision is obtained by pigeonhole over the 2^128 possible MD5
states. -/
theorem cache_key_collision_counterexample :
    ∃ c c' : String, c ≠ c' ∧
      generateCacheKey [⟨c, "doc.txt", ""⟩]
          (some ⟨.concurrent, 3, 3, 2, 2, 7 / 10, 500⟩) =
        generateCacheKey [⟨c', "doc.txt", ""⟩]
          (some ⟨.concurrent, 3, 3, 2, 2, 7 / 10, 500⟩) := by
  obtain ⟨a, b, hab, heq⟩ := Finite.exists_ne_map_eq_of_infinite
    (fun n : ℕ =>
      ((⟨(md5State (cacheMaterial [⟨⟨List.replicate n 'a'⟩, "doc.txt", ""⟩]
            (some ⟨.concurrent, 3, 3, 2, 2, 7 / 10, 500⟩))).1,
          (md5State_lt _).1⟩ : Fin (2 ^ 32)),
        (⟨(md5State (cacheMaterial [⟨⟨List.replicate n 'a'⟩, "doc.txt", ""⟩]
            (some ⟨.concurrent, 3, 3, 2, 2, 7 / 10, 500⟩))).2.1,
          (md5State_lt _).2.1⟩ : Fin (2 ^ 32)),
        (⟨(md5State (cacheMaterial [⟨⟨List.replicate n 'a'⟩, "doc.txt", ""⟩]
            (some ⟨.concurrent, 3, 3, 2, 2, 7 / 10, 500⟩))).2.2.1,
          (md5State_lt _).2.2.1⟩ : Fin (2 ^ 32)),
        (⟨(md5State (cacheMaterial [⟨⟨List.replicate n 'a'⟩, "doc.txt", ""⟩]
            (some ⟨.concurrent, 3, 3, 2, 2, 7 / 10, 500⟩))).2.2.2,
          (md5State_lt _).2.2.2⟩ : Fin (2 ^ 32))))
  refine ⟨⟨List.replicate a 'a'⟩, ⟨List.replicate b 'a'⟩, ?_, ?_⟩
  · intro h
    apply hab
    have h2 := congrArg String.data h
    have h3 := congrArg List.length h2
    simpa using h3
  · have h1 := congrArg (fun p => p.1.1) heq
    have h2 := congrArg (fun p => p.2.1.1) heq
    have h3 := congrArg (fun p => p.2.2.1.1) heq
    have h4 := congrArg (fun p => p.2.2.2.1) heq
    simp only at h1 h2 h3 h4
    have hst : md5State (cacheMaterial [⟨⟨List.replicate a 'a'⟩, "doc.txt", ""⟩]
          (some ⟨.concurrent, 3, 3, 2, 2, 7 / 10, 500⟩)) =
        md5State (cacheMaterial [⟨⟨List.replicate b 'a'⟩, "doc.txt", ""⟩]
          (some ⟨.concurrent, 3, 3, 2, 2, 7 / 10, 500⟩)) := by
      rcases hA : md5State (cacheMaterial [⟨⟨List.replicate a 'a'⟩, "doc.txt", ""⟩]
          (some ⟨.concurrent, 3, 3, 2, 2, 7 / 10, 500⟩)) with ⟨x1, x2, x3, x4⟩
      rcases hB : md5State (cacheMaterial [⟨⟨List.replicate b 'a'⟩, "doc.txt", ""⟩]
          (some ⟨.concurrent, 3, 3, 2, 2, 7 / 10, 500⟩)) with ⟨y1, y2, y3, y4⟩
      rw [hA, hB] at h1 h2 h3 h4
      simp only at h1 h2 h3 h4
      rw [h1, h2, h3, h4]
    unfold generateCacheKey
    congr 1
    show String.mk _ = String.mk _
    congr 1
    unfold hexdigestOf
    congr 1
    unfold md5Digest
    rw [hst]

theorem utf8Encode_append (xs ys : List Char) :
    utf8Encode (xs ++ ys) = utf8Encode xs ++ utf8Encode ys := by
  unfold utf8Encode
  exact List.flatMap_append xs ys utf8EncodeChar

theorem cacheMaterial_content_only (documents documents' : List Doc)
    (settings : Option GenerationSettings)
    (h : documents.map Doc.page_content = documents'.map Doc.page_content) :
    generateCacheKey documents settings = generateCacheKey documents' settings := by
  have hm : cacheMaterial documents settings = cacheMaterial documents' settings := by
    unfold cacheMaterial
    have hmap : ∀ docs : List Doc,
        (docs.map fun d => utf8Encode d.page_content.data) =
          (docs.map Doc.page_content).map fun p => utf8Encode p.data := by
      intro docs
      rw [List.map_map]
      rfl
    rw [hmap, hmap, h]
  unfold generateCacheKey
  rw [hm]

theorem string_data_inj {a b : String} (h : a.data = b.data) : a = b := by
  cases a
  cases b
  exact congrArg String.mk h

theorem cacheMaterial_doc_inj (pre post : List Doc) (d d' : Doc)
    (settings : Option GenerationSettings)
    (h : cacheMaterial (pre ++ d :: post) settings =
      cacheMaterial (pre ++ d' :: post) settings) :
    d.page_content = d'.page_content := by
  unfold cacheMaterial at h
  simp only [List.map_append, List.map_cons, List.flatten_append, List.flatten_cons,
    List.append_assoc] at h
  replace h := List.append_cancel_left h
  replace h := List.append_cancel_right h
  exact string_data_inj (utf8Encode_inj h)

theorem cacheMaterial_settings_eq (documents : List Doc) (s s' : GenerationSettings)
    (h : cacheMaterial documents (some s) = cacheMaterial documents (some s')) :
    settingsDictStr s = settingsDictStr s' := by
  unfold cacheMaterial at h
  dsimp only at h
  replace h := List.append_cancel_left h
  exact utf8Encode_inj h

theorem settingsDictStr_mode_inj (s : GenerationSettings) (x x' : ExecutionMode)
    (h : settingsDictStr { s with execution_mode := x } =
      settingsDictStr { s with execution_mode := x' }) : x = x' := by
  unfold settingsDictStr at h
  dsimp only at h
  simp only [List.append_assoc] at h
  iterate 1 replace h := List.append_cancel_left h
  replace h := List.append_cancel_right h
  revert h
  cases x <;> cases x' <;> decide

theorem settingsDictStr_maxq_inj (s : GenerationSettings) (x x' : Nat)
    (h : settingsDictStr { s with max_base_questions_per_doc := x } =
      settingsDictStr { s with max_base_questions_per_doc := x' }) : x = x' := by
  unfold settingsDictStr at h
  dsimp only at h
  simp only [List.append_assoc] at h
  iterate 3 replace h := List.append_cancel_left h
  replace h := List.append_cancel_right h
  exact natDigits_inj h

theorem settingsDictStr_simple_inj (s : GenerationSettings) (x x' : Nat)
    (h : settingsDictStr { s with simple_evolution_count := x } =
      settingsDictStr { s with simple_evolution_count := x' }) : x = x' := by
  unfold settingsDictStr at h
  dsimp only at h
  simp only [List.append_assoc] at h
  iterate 5 replace h := List.append_cancel_left h
  replace h := List.append_cancel_right h
  exact natDigits_inj h

theorem settingsDictStr_multi_inj (s : GenerationSettings) (x x' : Nat)
    (h : settingsDictStr { s with multi_context_evolution_count := x } =
      settingsDictStr { s with multi_context_evolution_count := x' }) : x = x' := by
  unfold settingsDictStr at h
  dsimp only at h
  simp only [List.append_assoc] at h
  iterate 7 replace h := List.append_cancel_left h
  replace h := List.append_cancel_right h
  exact natDigits_inj h

theorem settingsDictStr_reasoning_inj (s : GenerationSettings) (x x' : Nat)
    (h : settingsDictStr { s with reasoning_evolution_count := x } =
      settingsDictStr { s with reasoning_evolution_count := x' }) : x = x' := by
  unfold settingsDictStr at h
  dsimp only at h
  simp only [List.append_assoc] at h
  iterate 9 replace h := List.append_cancel_left h
  replace h := List.append_cancel_right h
  exact natDigits_inj h

theorem settingsDictStr_temp_inj (s : GenerationSettings) (x x' : ℚ)
    (h : settingsDictStr { s with temperature := x } =
      settingsDictStr { s with temperature := x' }) : decRepr x = decRepr x' := by
  unfold settingsDictStr at h
  dsimp only at h
  simp only [List.append_assoc] at h
  iterate 11 replace h := List.append_cancel_left h
  replace h := List.append_cancel_right h
  exact h

theorem settingsDictStr_maxtok_inj (s : GenerationSettings) (x x' : Nat)
    (h : settingsDictStr { s with max_tokens := x } =
      settingsDictStr { s with max_tokens := x' }) : x = x' := by
  unfold settingsDictStr at h
  dsimp only at h
  simp only [List.append_assoc] at h
  iterate 13 replace h := List.append_cancel_left h
  replace h := List.append_cancel_right h
  exact natDigits_inj h

/-- C5 (amended).  The cache key is deterministic and depends only on the
sequence of document contents and the settings (never on metadata); moreover
the hashed byte material is genuinely input-sensitive: changing one document's
content (others fixed) or any single settings field changes the bytes fed to
MD5 (for the float temperature field, on non-negative exact-decimal values).
Key inequality itself cannot be promised, since MD5 has a finite range (see
the counterexample). -/
theorem cache_key_derivation_amended :
    (∀ (documents documents' : List Doc) (settings : Option GenerationSettings),
        documents.map Doc.page_content = documents'.map Doc.page_content →
        generateCacheKey documents settings = generateCacheKey documents' settings) ∧
      (∀ (pre post : List Doc) (d d' : Doc) (settings : Option GenerationSettings),
        d.page_content ≠ d'.page_content →
        cacheMaterial (pre ++ d :: post) settings ≠
          cacheMaterial (pre ++ d' :: post) settings) ∧
      (∀ (documents : List Doc) (s : GenerationSettings) (x x' : ExecutionMode),
        x ≠ x' →
        cacheMaterial documents (some { s with execution_mode := x }) ≠
          cacheMaterial documents (some { s with execution_mode := x' })) ∧
      (∀ (documents : List Doc) (s : GenerationSettings) (x x' : Nat),
        x ≠ x' →
        cacheMaterial documents (some { s with max_base_questions_per_doc := x }) ≠
          cacheMaterial documents (some { s with max_base_questions_per_doc := x' })) ∧
      (∀ (documents : List Doc) (s : GenerationSettings) (x x' : Nat),
        x ≠ x' →
        cacheMaterial documents (some { s with simple_evolution_count := x }) ≠
          cacheMaterial documents (some { s with simple_evolution_count := x' })) ∧
      (∀ (documents : List Doc) (s : GenerationSettings) (x x' : Nat),
        x ≠ x' →
        cacheMaterial documents (some { s with multi_context_evolution_count := x }) ≠
          cacheMaterial documents (some { s with multi_context_evolution_count := x' })) ∧
      (∀ (documents : List Doc) (s : GenerationSettings) (x x' : Nat),
        x ≠ x' →
        cacheMaterial documents (some { s with reasoning_evolution_count := x }) ≠
          cacheMaterial documents (some { s with reasoning_evolution_count := x' })) ∧
      (∀ (documents : List Doc) (s : GenerationSettings) (x x' : ℚ),
        0 ≤ x → 0 ≤ x' → x.den ∣ 10 ^ decExp x.den → x'.den ∣ 10 ^ decExp x'.den →
        x ≠ x' →
        cacheMaterial documents (some { s with temperature := x }) ≠
          cacheMaterial documents (some { s with temperature := x' })) ∧
      (∀ (documents : List Doc) (s : GenerationSettings) (x x' : Nat),
        x ≠ x' →
        cacheMaterial documents (some { s with max_tokens := x }) ≠
          cacheMaterial documents (some { s with max_tokens := x' })) := by
  refine ⟨cacheMaterial_content_only, ?_, ?_, ?_, ?_, ?_, ?_, ?_, ?_⟩
  · intro pre post d d' settings hne heq
    exact hne (cacheMaterial_doc_inj pre post d d' settings heq)
  · intro documents s x x' hne heq
    exact hne (settingsDictStr_mode_inj s x x' (cacheMaterial_settings_eq _ _ _ heq))
  · intro documents s x x' hne heq
    exact hne (settingsDictStr_maxq_inj s x x' (cacheMaterial_settings_eq _ _ _ heq))
  · intro documents s x x' hne heq
    exact hne (settingsDictStr_simple_inj s x x' (cacheMaterial_settings_eq _ _ _ heq))
  · intro documents s x x' hne heq
    exact hne (settingsDictStr_multi_inj s x x' (cacheMaterial_settings_eq _ _ _ heq))
  · intro documents s x x' hne heq
    exact hne (settingsDictStr_reasoning_inj s x x' (cacheMaterial_settings_eq _ _ _ heq))
  · intro documents s x x' h0 h0' hd hd' hne heq
    exact hne (decRepr_inj h0 h0' hd hd'
      (settingsDictStr_temp_inj s x x' (cacheMaterial_settings_eq _ _ _ heq)))
  · intro documents s x x' hne heq
    exact hne (settingsDictStr_maxtok_inj s x x' (cacheMaterial_settings_eq _ _ _ heq))

/-- C5 witness: the amended theorem applied to concrete documents and
settings. -/
theorem cache_key_derivation_amended_witness :
    (generateCacheKey [⟨"Doc one.", "a.txt", ""⟩] none =
        generateCacheKey [⟨"Doc one.", "b.txt", "meta"⟩] none) ∧
      cacheMaterial [⟨"A", "a.txt", ""⟩] none ≠
        cacheMaterial [⟨"B", "a.txt", ""⟩] none ∧
      cacheMaterial [] (some ⟨.concurrent, 3, 3, 2, 2, 1, 500⟩) ≠
        cacheMaterial [] (some ⟨.sequential, 3, 3, 2, 2, 1, 500⟩) ∧
      cacheMaterial [] (some ⟨.concurrent, 3, 3, 2, 2, 1, 500⟩) ≠
        cacheMaterial [] (some ⟨.concurrent, 4, 3, 2, 2, 1, 500⟩) ∧
      cacheMaterial [] (some ⟨.concurrent, 3, 3, 2, 2, 1, 500⟩) ≠
        cacheMaterial [] (some ⟨.concurrent, 3, 4, 2, 2, 1, 500⟩) ∧
      cacheMaterial [] (some ⟨.concurrent, 3, 3, 2, 2, 1, 500⟩) ≠
        cacheMaterial [] (some ⟨.concurrent, 3, 3, 3, 2, 1, 500⟩) ∧
      cacheMaterial [] (some ⟨.concurrent, 3, 3, 2, 2, 1, 500⟩) ≠
        cacheMaterial [] (some ⟨.concurrent, 3, 3, 2, 3, 1, 500⟩) ∧
      cacheMaterial [] (some ⟨.concurrent, 3, 3, 2, 2, 1, 500⟩) ≠
        cacheMaterial [] (some ⟨.concurrent, 3, 3, 2, 2, 2, 500⟩) ∧
      cacheMaterial [] (some ⟨.concurrent, 3, 3, 2, 2, 1, 500⟩) ≠
        cacheMaterial [] (some ⟨.concurrent, 3, 3, 2, 2, 1, 501⟩) :=
  ⟨cache_key_derivation_amended.1 [⟨"Doc one.", "a.txt", ""⟩]
      [⟨"Doc one.", "b.txt", "meta"⟩] none rfl,
    cache_key_derivation_amended.2.1 [] [] ⟨"A", "a.txt", ""⟩ ⟨"B", "a.txt", ""⟩
      none (by decide),
    cache_key_derivation_amended.2.2.1 [] ⟨.concurrent, 3, 3, 2, 2, 1, 500⟩
      .concurrent .sequential (by decide),
    cache_key_derivation_amended.2.2.2.1 [] ⟨.concurrent, 3, 3, 2, 2, 1, 500⟩
      3 4 (by decide),
    cache_key_derivation_amended.2.2.2.2.1 [] ⟨.concurrent, 3, 3, 2, 2, 1, 500⟩
      3 4 (by decide),
    cache_key_derivation_amended.2.2.2.2.2.1 [] ⟨.concurrent, 3, 3, 2, 2, 1, 500⟩
      2 3 (by decide),
    cache_key_derivation_amended.2.2.2.2.2.2.1 [] ⟨.concurrent, 3, 3, 2, 2, 1, 500⟩
      2 3 (by decide),
    cache_key_derivation_amended.2.2.2.2.2.2.2.1 [] ⟨.concurrent, 3, 3, 2, 2, 1, 500⟩
      1 2 (by decide) (by decide) (by decide) (by decide) (by decide),
    cache_key_derivation_amended.2.2.2.2.2.2.2.2 [] ⟨.concurrent, 3, 3, 2, 2, 1, 500⟩
      500 501 (by decide)⟩

end EvolSynth
